import Mathlib

/-!
Verification of the recommendation core of the music-recommender repository.

The development shallowly embeds the JavaScript recommendation engine
(`src/server/services/recommendationEngine.js`, the rule engine in
`src/unnamed/part_008`, the rule model in
`src/server/models/RecommendationRule.js`, and the two-part orchestrator in
`src/unnamed/part_007`) into Lean.  JavaScript numbers are modelled as `ℚ`,
absent (`undefined`) values as `Option`, thrown exceptions as `Except`, and
the `x || d` defaulting idiom — which also replaces the number `0` and the
empty string — is modelled explicitly.
-/

namespace MusicRec

/-- JavaScript `p || d` for an optional number: `undefined` and `0` are falsy
and replaced by the default. -/
def numOr (p : Option ℚ) (d : ℚ) : ℚ :=
  match p with
  | none => d
  | some v => if v = 0 then d else v

/-- JavaScript `s || d` for an optional string: `undefined` and `""` are falsy
and replaced by the default. -/
def strOr (s : Option String) (d : String) : String :=
  match s with
  | none => d
  | some v => if v = "" then d else v

/-- JavaScript truthiness of an optional number (`undefined`, `0` are falsy). -/
def numTruthy (p : Option ℚ) : Bool :=
  match p with
  | none => false
  | some v => v ≠ 0

/-- Substring test, JavaScript `String.prototype.includes`. -/
def strIncludes (s pat : String) : Bool :=
  (s.splitOn pat).length > 1

/-- `list.includes(v)` applied to an optional value: `includes(undefined)` is
`false` for a list of strings. -/
def jsIncludesOpt (l : List String) (v : Option String) : Bool :=
  match v with
  | some s => l.contains s
  | none => false

/-- `condList?.includes(v)`: optional chaining on an absent condition list
yields `undefined`, which is falsy. -/
def condIncludes (o : Option (List String)) (v : Option String) : Bool :=
  match o with
  | some l => jsIncludesOpt l v
  | none => false

/-- A track artist as used by the engine (`id` may be absent; in JavaScript
`undefined === undefined` holds, so two id-less artists compare equal). -/
structure Artist where
  id : Option String
  name : String
deriving DecidableEq, Repr

/-- A candidate track (Spotify track object as consumed by the engine). -/
structure Track where
  id : String
  name : String
  artists : List Artist
  popularity : Option ℚ
  explicit : Bool
deriving DecidableEq, Repr

/-- Weather part of a context (`context.weather`). -/
structure WeatherInfo where
  condition : Option String
  temperature : Option ℚ
deriving DecidableEq, Repr

/-- Geolocation part of a context (`context.geoLocation`). -/
structure GeoInfo where
  country : Option String
  city : Option String
deriving DecidableEq, Repr

/-- Detected mood part of a context (`context.moodDetected`). -/
structure MoodInfo where
  primary : Option String
deriving DecidableEq, Repr

/-- Detected activity part of a context (`context.activityContext`). -/
structure ActivityInfo where
  detectedActivity : Option String
deriving DecidableEq, Repr

/-- A request context snapshot. -/
structure Context where
  timeOfDay : Option String
  weather : Option WeatherInfo
  geoLocation : Option GeoInfo
  season : Option String
  moodDetected : Option MoodInfo
  activityContext : Option ActivityInfo
deriving DecidableEq, Repr

/-- A `{ name, weight }` pair (themes and genres of rules and candidates). -/
structure WeightedName where
  name : String
  weight : ℚ
deriving DecidableEq, Repr

/-- A `{ artist, boost }` pair (`candidates.userArtists`). -/
structure ArtistBoost where
  artist : String
  boost : ℚ
deriving DecidableEq, Repr

/-- A `{ genre, boost }` pair (`candidates.userGenres`). -/
structure GenreBoost where
  genre : String
  boost : ℚ
deriving DecidableEq, Repr

/-- An audio-feature constraint as stored on a rule: every field may be
absent. -/
structure FeatureSpec where
  min : Option ℚ
  max : Option ℚ
  target : Option ℚ
  weight : Option ℚ
deriving DecidableEq, Repr

/-- An accumulated audio-feature constraint inside the rule combiner
(initialised to `{ min: 0, max: 1, target: 0.5, weight: 0 }`). -/
structure CombinedFeature where
  min : ℚ
  max : ℚ
  target : ℚ
  weight : ℚ
deriving DecidableEq, Repr

/-- The six audio features handled by the engine, each possibly absent. -/
structure AudioFeatureMap where
  valence : Option CombinedFeature
  energy : Option CombinedFeature
  danceability : Option CombinedFeature
  acousticness : Option CombinedFeature
  instrumentalness : Option CombinedFeature
  tempo : Option CombinedFeature
deriving DecidableEq, Repr

/-- Per-rule audio-feature recommendations (`recommendations.audioFeatures`). -/
structure RuleAudioFeatures where
  valence : Option FeatureSpec
  energy : Option FeatureSpec
  danceability : Option FeatureSpec
  acousticness : Option FeatureSpec
  instrumentalness : Option FeatureSpec
  tempo : Option FeatureSpec
deriving DecidableEq, Repr

/-- The combined candidate profile produced by the rule engine and consumed by
the candidate fetcher and the ranker (timestamp omitted). -/
structure Candidates where
  themes : List WeightedName
  genres : List WeightedName
  audioFeatures : AudioFeatureMap
  contextTags : List String
  moodTags : List String
  excludedGenres : List String
  excludedMoodTags : List String
  userGenres : List GenreBoost
  userArtists : List ArtistBoost
  contextFingerprint : String
deriving DecidableEq, Repr

/-- The user profile assembled by `buildUserProfile` (only the fields the
ranking pipeline reads). -/
structure UserProfile where
  topTracks : List Track
  topArtists : List Artist
  topGenres : List WeightedName
  recentTracks : List Track
  avoidExplicit : Bool
deriving DecidableEq, Repr

/-- A track annotated by `rankTracks`.  The four sub-scores are absent in the
degraded (caught-exception) branch, which only sets `score` and `reasons`. -/
structure RankedTrack where
  track : Track
  score : ℚ
  reasons : List String
  contextScore : Option ℚ
  preferenceScore : Option ℚ
  popularityScore : Option ℚ
  noveltyScore : Option ℚ
deriving DecidableEq, Repr

/-- `isRecentlyPlayed`: membership of the track id in the recent-plays window. -/
def isRecentlyPlayed (track : Track) (recentTracks : List Track) : Bool :=
  recentTracks.any (fun recent => recent.id = track.id)

/-- `inferTrackGenres`: builds `{ name, confidence }` objects from the
candidate genres and keeps the first three. -/
def inferTrackGenres (candidateGenres : List WeightedName) : List WeightedName :=
  (candidateGenres.map (fun genre => ⟨genre.name, genre.weight⟩)).take 3

/-- `calculateMoodMatch`: keyword matches of the track name against the
detected mood and rainy weather. -/
def calculateMoodMatch (track : Track) (context : Context) : ℚ :=
  let trackName := track.name.toLower
  let contextMood := context.moodDetected.bind (·.primary)
  let score : ℚ := 0
  let score := if contextMood = some "happy" ∧
      (strIncludes trackName "happy" ∨ strIncludes trackName "joy") then score + 1/2 else score
  let score := if contextMood = some "calm" ∧
      (strIncludes trackName "calm" ∨ strIncludes trackName "peace") then score + 1/2 else score
  let score := if (context.weather.bind (·.condition)) = some "rainy" ∧
      strIncludes trackName "rain" then score + 3/10 else score
  max 0 (min 1 score)

/-- `calculateContextScore`.  The genre-matching branch calls
`tg.toLowerCase()` on the `{ name, confidence }` objects produced by
`inferTrackGenres`, which raises a `TypeError` whenever the inferred genre
list is non-empty; the error is modelled as `Except.error`. -/
def calculateContextScore (track : Track) (context : Context) (candidates : Candidates) :
    Except Unit ℚ :=
  let trackGenres := inferTrackGenres candidates.genres
  if trackGenres.length > 0 then
    .error ()
  else
    let score : ℚ := 0
    let score := match candidates.userArtists.find? (fun ua =>
        track.artists.any (fun artist => artist.name.toLower = ua.artist.toLower)) with
      | some artistMatch => score + artistMatch.boost * (2/5)
      | none => score
    let score := score + calculateMoodMatch track context * (3/10)
    .ok (max 0 (min 1 score))

/-- `calculatePreferenceScore`: top-artist bonus, shared-word bonus, and the
tiered popularity bonus. -/
def calculatePreferenceScore (track : Track) (userProfile : UserProfile) : ℚ :=
  let score : ℚ := 0
  let isTopArtist := userProfile.topArtists.any (fun artist =>
    track.artists.any (fun trackArtist => trackArtist.id = artist.id))
  let score := if isTopArtist then score + 2/5 else score
  let nameWords := (track.name.toLower).splitOn " "
  let topTrackWords := userProfile.topTracks.flatMap (fun t => (t.name.toLower).splitOn " ")
  let wordOverlap := (nameWords.filter (fun word =>
    topTrackWords.contains word ∧ word.length > 3)).length
  let score := if wordOverlap > 0 then score + min (3/10) ((wordOverlap : ℚ) * (1/10)) else score
  let popularity := numOr track.popularity 50
  let score := if 30 ≤ popularity ∧ popularity ≤ 80 then score + 3/10
    else if popularity > 80 then score + 1/5
    else score + 1/10
  max 0 (min 1 score)

/-- `calculateNoveltyScore`: 0.1 when recently played, 0.6 for a known artist,
0.8 for an unknown artist with popularity above 20, else 0.5. -/
def calculateNoveltyScore (track : Track) (userProfile : UserProfile) : ℚ :=
  let isKnownArtist := userProfile.topArtists.any (fun artist =>
    track.artists.any (fun trackArtist => trackArtist.id = artist.id))
  let isRecent := isRecentlyPlayed track userProfile.recentTracks
  if isRecent then 1/10
  else if isKnownArtist then 3/5
  else if numOr track.popularity 0 > 20 then 4/5
  else 1/2

/-- The weighted sum of the four sub-scores before penalties
(`0.4·context + 0.35·preference + 0.15·popularity + 0.1·novelty`). -/
def rawWeightedSum (contextScore preferenceScore popularityScore noveltyScore : ℚ) : ℚ :=
  contextScore * (2/5) + preferenceScore * (7/20) + popularityScore * (3/20) +
    noveltyScore * (1/10)

/-- The multiplicative penalties applied after the weighted sum: ×0.7 when
recently played, then ×0.5 for explicit content with the avoid-explicit
preference. -/
def penalizedScore (raw : ℚ) (recent explicitAvoid : Bool) : ℚ :=
  let score := if recent then raw * (7/10) else raw
  if explicitAvoid then score * (1/2) else score

/-- One iteration of the `tracks.map` body of `rankTracks`: computes the four
sub-scores, the penalised weighted sum, the clamp to `[0,1]`, and the reason
strings. -/
def rankOne (context : Context) (userProfile : UserProfile) (candidates : Candidates)
    (track : Track) : Except Unit RankedTrack :=
  match calculateContextScore track context candidates with
  | .error e => .error e
  | .ok contextScore =>
    let preferenceScore := calculatePreferenceScore track userProfile
    let popularityScore := numOr track.popularity 50 / 100
    let noveltyScore := calculateNoveltyScore track userProfile
    let reasons := (if contextScore > 7/10 then ["Great context match"] else []) ++
      (if preferenceScore > 7/10 then ["Matches your taste"] else []) ++
      (if noveltyScore > 4/5 then ["New discovery"] else [])
    let raw := rawWeightedSum contextScore preferenceScore popularityScore noveltyScore
    let score := penalizedScore raw (isRecentlyPlayed track userProfile.recentTracks)
      (track.explicit ∧ userProfile.avoidExplicit)
    .ok { track := track
          score := max 0 (min 1 score)
          reasons := reasons
          contextScore := some contextScore
          preferenceScore := some preferenceScore
          popularityScore := some popularityScore
          noveltyScore := some noveltyScore }

/-- The `tracks.map` of `rankTracks` with JavaScript exception propagation: the
first `TypeError` aborts the whole map. -/
def rankAll (context : Context) (userProfile : UserProfile) (candidates : Candidates) :
    List Track → Except Unit (List RankedTrack)
  | [] => .ok []
  | t :: ts =>
    match rankOne context userProfile candidates t with
    | .error e => .error e
    | .ok r =>
      match rankAll context userProfile candidates ts with
      | .error e => .error e
      | .ok rs => .ok (r :: rs)

/-- `rankTracks`: maps the scoring body over the pool and sorts descending by
score (JavaScript's stable sort is modelled by a stable insertion sort, which
produces the same list); the surrounding `try`/`catch` degrades to a uniform
score of 0.5 with no reasons and no sub-scores when anything throws. -/
def rankTracks (tracks : List Track) (context : Context) (userProfile : UserProfile)
    (candidates : Candidates) : List RankedTrack :=
  match rankAll context userProfile candidates tracks with
  | .ok rankedTracks => rankedTracks.insertionSort (fun a b => b.score ≤ a.score)
  | .error _ => tracks.map (fun track =>
      { track := track, score := 1/2, reasons := []
        contextScore := none, preferenceScore := none
        popularityScore := none, noveltyScore := none })

/-- A track admitted by `selectFinalTracks`: the ranked track spread together
with its `finalScore`. -/
structure SelectedTrack where
  base : RankedTrack
  finalScore : ℚ
deriving DecidableEq, Repr

/-- The loop state of `selectFinalTracks`: the admitted tracks and the
seen-artist set (modelled as an insertion-ordered duplicate-free list). -/
structure SelState where
  selected : List SelectedTrack
  seenArtists : List String
deriving DecidableEq, Repr

/-- `Set.prototype.add` for the seen-artist set. -/
def addSeen (seen : List String) (names : List String) : List String :=
  names.foldl (fun s n => if s.contains n then s else s ++ [n]) seen

/-- The diversity penalty of the candidate under the current state: +0.3 for a
seen artist, multiplied by 1.5 on every positive multiple of five selections. -/
def diversityPenalty (st : SelState) (track : RankedTrack) : ℚ :=
  let artistNames := track.track.artists.map (·.name)
  let hasSeenArtist := artistNames.any (fun name => st.seenArtists.contains name)
  let penalty : ℚ := if hasSeenArtist then 3/10 else 0
  if st.selected.length > 0 ∧ st.selected.length % 5 = 0 then penalty * (3/2) else penalty

/-- `adjustedScore = score * (1 - diversityPenalty * diversityWeight)`. -/
def adjustedScore (diversityWeight : ℚ) (st : SelState) (track : RankedTrack) : ℚ :=
  track.score * (1 - diversityPenalty st track * diversityWeight)

/-- One iteration of the selection loop of `selectFinalTracks` (the `break`
once `targetLength` tracks are selected is modelled by leaving the state
unchanged). -/
def selectStep (targetLength : ℕ) (diversityWeight : ℚ) (st : SelState)
    (track : RankedTrack) : SelState :=
  if st.selected.length ≥ targetLength then st
  else
    let adjusted := adjustedScore diversityWeight st track
    if adjusted > 1/5 ∨ (st.selected.length : ℚ) < (targetLength : ℚ) * (7/10) then
      { selected := st.selected ++ [⟨track, adjusted⟩]
        seenArtists := addSeen st.seenArtists (track.track.artists.map (·.name)) }
    else st

/-- The main greedy loop of `selectFinalTracks`. -/
def selectLoop (targetLength : ℕ) (diversityWeight : ℚ) (rankedTracks : List RankedTrack) :
    SelState :=
  rankedTracks.foldl (selectStep targetLength diversityWeight) ⟨[], []⟩

/-- The under-fill fallback of `selectFinalTracks`: the not-yet-selected
tracks (by id), in ranked order, with score discounted ×0.8. -/
def fallbackFill (rankedTracks : List RankedTrack) (selected : List SelectedTrack)
    (targetLength : ℕ) : List SelectedTrack :=
  ((rankedTracks.filter (fun track =>
      ¬ selected.any (fun s => s.base.track.id = track.track.id))).take
    (targetLength - selected.length)).map (fun track => ⟨track, track.score * (4/5)⟩)

/-- `selectFinalTracks`: greedy diversity selection followed by the under-fill
fallback and the final `slice(0, targetLength)`. -/
def selectFinalTracks (rankedTracks : List RankedTrack) (targetLength : ℕ)
    (diversityWeight : ℚ) : List SelectedTrack :=
  let selected := (selectLoop targetLength diversityWeight rankedTracks).selected
  let selected := if selected.length < targetLength then
      selected ++ fallbackFill rankedTracks selected targetLength
    else selected
  selected.take targetLength

/-- A rule's temperature-range condition (`min`/`max` may be absent). -/
structure TempRange where
  min : Option ℚ
  max : Option ℚ
deriving DecidableEq, Repr

/-- A rule's geographic condition (`continents` exists in the schema but is
ignored by `matches`). -/
structure GeoRegion where
  countries : Option (List String)
  cities : Option (List String)
  continents : Option (List String)
deriving DecidableEq, Repr

/-- The condition block of a recommendation rule. -/
structure Conditions where
  timeOfDay : Option (List String)
  weather : Option (List String)
  temperatureRange : Option TempRange
  geoRegion : Option GeoRegion
  season : Option (List String)
  mood : Option (List String)
  activity : Option (List String)
deriving DecidableEq, Repr

/-- The recommendation payload of a rule. -/
structure RulePayload where
  themes : Option (List WeightedName)
  genres : Option (List WeightedName)
  audioFeatures : Option RuleAudioFeatures
  contextTags : Option (List String)
  moodTags : Option (List String)
  excludedGenres : Option (List String)
  excludedMoodTags : Option (List String)
deriving DecidableEq, Repr

/-- A recommendation rule (`effectiveness` reduced to the `successRate` field,
the only one the matching path reads; the schema defaults it to 0). -/
structure Rule where
  ruleId : String
  name : String
  conditions : Conditions
  recommendations : RulePayload
  priority : ℚ
  isActive : Bool
  successRate : ℚ
deriving DecidableEq, Repr

/-- The time-of-day guard of `matches` (an early `return false`). -/
def timeOfDayFails (c : Conditions) (context : Context) : Bool :=
  match c.timeOfDay with
  | some l => l.length > 0 ∧ ¬ jsIncludesOpt l context.timeOfDay
  | none => false

/-- The weather guard of `matches`. -/
def weatherFails (c : Conditions) (context : Context) : Bool :=
  match c.weather with
  | some l => l.length > 0 ∧ ¬ jsIncludesOpt l (context.weather.bind (·.condition))
  | none => false

/-- The temperature guard of `matches`.  The range is only enforced when
`context.weather?.temperature` is truthy (present and non-zero), and each
bound is only enforced when itself truthy. -/
def temperatureFails (c : Conditions) (context : Context) : Bool :=
  match c.temperatureRange, context.weather.bind (·.temperature) with
  | some tr, some temp =>
    if temp = 0 then false
    else
      (match tr.min with
        | some m => if m = 0 then false else decide (temp < m)
        | none => false) ||
      (match tr.max with
        | some m => if m = 0 then false else decide (temp > m)
        | none => false)
  | _, _ => false

/-- The geographic guard of `matches`: only enforced when both the rule's
`geoRegion` and the context's `geoLocation` are present. -/
def geoFails (c : Conditions) (context : Context) : Bool :=
  match c.geoRegion, context.geoLocation with
  | some gr, some loc =>
    (match gr.countries with
      | some countries => countries.length > 0 ∧ ¬ jsIncludesOpt countries loc.country
      | none => false) ||
    (match gr.cities with
      | some cities => cities.length > 0 ∧ ¬ jsIncludesOpt cities loc.city
      | none => false)
  | _, _ => false

/-- The season guard of `matches`. -/
def seasonFails (c : Conditions) (context : Context) : Bool :=
  match c.season with
  | some l => l.length > 0 ∧ ¬ jsIncludesOpt l context.season
  | none => false

/-- The mood guard of `matches`: only enforced when `context.moodDetected` is
present. -/
def moodFails (c : Conditions) (context : Context) : Bool :=
  match c.mood, context.moodDetected with
  | some l, some md => l.length > 0 ∧ ¬ jsIncludesOpt l md.primary
  | _, _ => false

/-- The activity guard of `matches`: only enforced when
`context.activityContext` is present. -/
def activityFails (c : Conditions) (context : Context) : Bool :=
  match c.activity, context.activityContext with
  | some l, some ac => l.length > 0 ∧ ¬ jsIncludesOpt l ac.detectedActivity
  | _, _ => false

/-- `RecommendationRule.methods.matches`: the sequence of early-return guards. -/
def Rule.matches (rule : Rule) (context : Context) : Bool :=
  let c := rule.conditions
  if timeOfDayFails c context then false
  else if weatherFails c context then false
  else if temperatureFails c context then false
  else if geoFails c context then false
  else if seasonFails c context then false
  else if moodFails c context then false
  else if activityFails c context then false
  else true

/-- `RecommendationRule.methods.getMatchScore`: 0 for a non-matching rule,
otherwise the priority plus exact-hit bonuses, scaled by
`(1 + effectiveness.successRate)`. -/
def getMatchScore (rule : Rule) (context : Context) : ℚ :=
  if ¬ rule.matches context then 0
  else
    let score := rule.priority
    let score := if condIncludes rule.conditions.timeOfDay context.timeOfDay then
        score + 1/2 else score
    let score := if condIncludes rule.conditions.weather (context.weather.bind (·.condition)) then
        score + 1/2 else score
    let score := if condIncludes rule.conditions.mood (context.moodDetected.bind (·.primary)) then
        score + 3/10 else score
    score * (1 + rule.successRate)

/-- The scoring/filtering callback of `findMatchingRules`: scores the fetched
rules, drops the ones scoring 0, sorts descending by score and keeps the top
`limit`. -/
def filterAndScoreRules (rules : List Rule) (context : Context) (limit : ℕ) : List Rule :=
  ((((rules.map (fun rule => (rule, getMatchScore rule context))).filter
    (fun item => item.2 > 0)).insertionSort (fun a b => b.2 ≤ a.2)).take limit).map (·.1)

/-- `Map.prototype.get` on an insertion-ordered string-keyed map. -/
def mapGet (m : List (String × ℚ)) (k : String) : Option ℚ :=
  (m.find? (fun p => p.1 = k)).map (·.2)

/-- `Map.prototype.set`: replaces the entry in place or appends a new one. -/
def mapSet (m : List (String × ℚ)) (k : String) (v : ℚ) : List (String × ℚ) :=
  match m with
  | [] => [(k, v)]
  | (k', v') :: rest => if k' = k then (k, v) :: rest else (k', v') :: mapSet rest k v

/-- The per-rule accumulation of theme/genre weights inside
`combineRuleRecommendations`: each name gains `item.weight * weight`. -/
def accumWeighted (m : List (String × ℚ)) (items : List WeightedName) (weight : ℚ) :
    List (String × ℚ) :=
  items.foldl (fun acc item =>
    mapSet acc item.name ((mapGet acc item.name).getD 0 + item.weight * weight)) m

/-- `combineAudioFeatures` for a single feature: weighted-average of targets
and intersection of the min/max bounds (`sourceFeature.weight || 1` treats a
zero weight as 1). -/
def combineOneFeature (targetFeature : Option CombinedFeature)
    (sourceFeature : Option FeatureSpec) (weight : ℚ) : Option CombinedFeature :=
  match sourceFeature with
  | none => targetFeature
  | some src =>
    let tf := targetFeature.getD ⟨0, 1, 1/2, 0⟩
    let tf := match src.target with
      | some srcTarget =>
        let totalWeight := tf.weight + numOr src.weight 1 * weight
        { tf with
          target := (tf.target * tf.weight + srcTarget * numOr src.weight 1 * weight) / totalWeight
          weight := totalWeight }
      | none => tf
    let tf := match src.min with
      | some srcMin => { tf with min := max tf.min srcMin }
      | none => tf
    let tf := match src.max with
      | some srcMax => { tf with max := min tf.max srcMax }
      | none => tf
    some tf

/-- `combineAudioFeatures` over the six features. -/
def combineAudioFeatures (target : AudioFeatureMap) (source : Option RuleAudioFeatures)
    (weight : ℚ) : AudioFeatureMap :=
  match source with
  | none => target
  | some src =>
    { valence := combineOneFeature target.valence src.valence weight
      energy := combineOneFeature target.energy src.energy weight
      danceability := combineOneFeature target.danceability src.danceability weight
      acousticness := combineOneFeature target.acousticness src.acousticness weight
      instrumentalness := combineOneFeature target.instrumentalness src.instrumentalness weight
      tempo := combineOneFeature target.tempo src.tempo weight }

/-- The mutable accumulator object of `combineRuleRecommendations`. -/
structure Combined where
  themes : List (String × ℚ)
  genres : List (String × ℚ)
  audioFeatures : AudioFeatureMap
  contextTags : List String
  moodTags : List String
  excludedGenres : List String
  excludedMoodTags : List String
deriving DecidableEq, Repr

/-- The empty accumulator. -/
def emptyCombined : Combined :=
  ⟨[], [], ⟨none, none, none, none, none, none⟩, [], [], [], []⟩

/-- The loop body of `combineRuleRecommendations` for one rule, threading the
total contribution weight. -/
def combineStep (context : Context) (acc : Combined × ℚ) (rule : Rule) : Combined × ℚ :=
  let c := acc.1
  let weight := rule.priority * getMatchScore rule context
  let totalWeight := acc.2 + weight
  let themes := match rule.recommendations.themes with
    | some ts => accumWeighted c.themes ts weight
    | none => c.themes
  let genres := match rule.recommendations.genres with
    | some gs => accumWeighted c.genres gs weight
    | none => c.genres
  let audioFeatures := combineAudioFeatures c.audioFeatures rule.recommendations.audioFeatures weight
  let contextTags := match rule.recommendations.contextTags with
    | some tags => addSeen c.contextTags tags
    | none => c.contextTags
  let moodTags := match rule.recommendations.moodTags with
    | some tags => addSeen c.moodTags tags
    | none => c.moodTags
  let excludedGenres := match rule.recommendations.excludedGenres with
    | some tags => addSeen c.excludedGenres tags
    | none => c.excludedGenres
  let excludedMoodTags := match rule.recommendations.excludedMoodTags with
    | some tags => addSeen c.excludedMoodTags tags
    | none => c.excludedMoodTags
  (⟨themes, genres, audioFeatures, contextTags, moodTags, excludedGenres, excludedMoodTags⟩,
    totalWeight)

/-- The full accumulation loop of `combineRuleRecommendations`, returning the
accumulator and the total contribution weight `Σ priority·matchScore`. -/
def combineAll (rules : List Rule) (context : Context) : Combined × ℚ :=
  rules.foldl (combineStep context) (emptyCombined, 0)

/-- The total contribution weight accumulated by `combineRuleRecommendations`. -/
def totalContribution (rules : List Rule) (context : Context) : ℚ :=
  (combineAll rules context).2

/-- `normalizeWeights`: divides every theme/genre weight by the total weight,
skipping normalization entirely when the total weight is 0. -/
def normalizeWeights (c : Combined) (totalWeight : ℚ) : Combined :=
  if totalWeight = 0 then c
  else
    { c with
      themes := c.themes.map (fun p => (p.1, p.2 / totalWeight))
      genres := c.genres.map (fun p => (p.1, p.2 / totalWeight)) }

/-- `getUserGenreBoosts`: rank-decayed boosts for the user's top genres. -/
def getUserGenreBoosts (userProfile : UserProfile) : List GenreBoost :=
  userProfile.topGenres.enum.map (fun p =>
    ⟨p.2.name, max (1/10) (1 - (p.1 : ℚ) * (1/10))⟩)

/-- `getUserArtistBoosts`: rank-decayed boosts for the first ten top artists. -/
def getUserArtistBoosts (userProfile : UserProfile) : List ArtistBoost :=
  (userProfile.topArtists.take 10).enum.map (fun p =>
    ⟨p.2.name, max (1/20) (1/2 - (p.1 : ℚ) * (1/20))⟩)

/-- JavaScript `Math.round` (half rounds up). -/
def jsRound (q : ℚ) : ℤ :=
  Int.floor (q + 1/2)

/-- `getContextFingerprint`: the underscore-joined categorical summary with
the temperature rounded to the nearest multiple of five. -/
def getContextFingerprint (context : Context) : String :=
  let temp := numOr (context.weather.bind (·.temperature)) 20
  String.intercalate "_"
    [strOr context.timeOfDay "unknown",
     strOr (context.weather.bind (·.condition)) "unknown",
     toString (jsRound (temp / 5) * 5),
     strOr (context.geoLocation.bind (·.city)) "unknown",
     strOr context.season "unknown"]

/-- `formatCandidates`: sorts the accumulated theme/genre maps descending by
weight and attaches the user boosts and context metadata. -/
def formatCandidates (combined : Combined) (context : Context) (userProfile : UserProfile) :
    Candidates :=
  { themes := ((combined.themes.map (fun p => (⟨p.1, p.2⟩ : WeightedName))).insertionSort
      (fun a b => b.weight ≤ a.weight))
    genres := ((combined.genres.map (fun p => (⟨p.1, p.2⟩ : WeightedName))).insertionSort
      (fun a b => b.weight ≤ a.weight))
    audioFeatures := combined.audioFeatures
    contextTags := combined.contextTags
    moodTags := combined.moodTags
    excludedGenres := combined.excludedGenres
    excludedMoodTags := combined.excludedMoodTags
    userGenres := getUserGenreBoosts userProfile
    userArtists := getUserArtistBoosts userProfile
    contextFingerprint := getContextFingerprint context }

/-- `combineRuleRecommendations`: accumulate, normalize, format. -/
def combineRuleRecommendations (rules : List Rule) (context : Context)
    (userProfile : UserProfile) : Candidates :=
  let acc := combineAll rules context
  formatCandidates (normalizeWeights acc.1 acc.2) context userProfile

/-- One applied-rule record of a rule-engine result. -/
structure AppliedRule where
  ruleId : String
  name : String
  weight : ℚ
  matchScore : ℚ
deriving DecidableEq, Repr

/-- The result of `ruleEngine.getCandidates`. -/
structure RuleResults where
  candidates : Candidates
  appliedRules : List AppliedRule
deriving DecidableEq, Repr

/-- `getFallbackGenres`: the time/weather → genre heuristics. -/
def getFallbackGenres (context : Context) : List String :=
  if context.timeOfDay = some "morning" then ["pop", "indie", "electronic"]
  else if context.timeOfDay = some "evening" ∨ context.timeOfDay = some "night" then
    if (context.weather.bind (·.condition)) = some "rainy" then ["jazz", "acoustic", "r&b"]
    else ["alternative", "indie", "electronic"]
  else if (context.weather.bind (·.condition)) = some "sunny" then ["pop", "indie", "reggae"]
  else ["pop", "indie", "alternative"]

/-- `getDefaultAudioFeatures`: default ranges, then the time-of-day
adjustment, then the weather adjustment (the weather one overwrites). -/
def getDefaultAudioFeatures (context : Context) : AudioFeatureMap :=
  let valence : CombinedFeature := ⟨3/10, 4/5, 1/2, 1⟩
  let energy : CombinedFeature := ⟨3/10, 4/5, 1/2, 1⟩
  let danceability : CombinedFeature := ⟨1/5, 4/5, 1/2, 1/2⟩
  let ve := if context.timeOfDay = some "morning" then
      ({ valence with target := 7/10 }, { energy with target := 7/10 })
    else if context.timeOfDay = some "night" then
      ({ valence with target := 2/5 }, { energy with target := 3/10 })
    else (valence, energy)
  let ve := if (context.weather.bind (·.condition)) = some "rainy" then
      ({ ve.1 with target := 3/10 }, { ve.2 with target := 3/10 })
    else if (context.weather.bind (·.condition)) = some "sunny" then
      ({ ve.1 with target := 4/5 }, { ve.2 with target := 7/10 })
    else ve
  { valence := some ve.1
    energy := some ve.2
    danceability := some danceability
    acousticness := none
    instrumentalness := none
    tempo := none }

/-- `getFallbackCandidates`: the synthetic profile returned when no rules
match, tagged with a single synthetic fallback rule application
(`weight 1.0`, `matchScore 0.5`).  The `filter(Boolean)` on the context tags
drops absent and empty-string values. -/
def getFallbackCandidates (context : Context) (userProfile : UserProfile) : RuleResults :=
  let fallbackGenres := getFallbackGenres context
  { candidates :=
      { themes := [⟨"general", 1⟩]
        genres := fallbackGenres.map (fun genre =>
          ⟨genre, 1 / (fallbackGenres.length : ℚ)⟩)
        audioFeatures := getDefaultAudioFeatures context
        contextTags := ([context.timeOfDay, context.weather.bind (·.condition)].filterMap id).filter
          (fun s => s ≠ "")
        moodTags := ["general"]
        excludedGenres := []
        excludedMoodTags := []
        userGenres := getUserGenreBoosts userProfile
        userArtists := getUserArtistBoosts userProfile
        contextFingerprint := getContextFingerprint context }
    appliedRules := [⟨"fallback", "Fallback Rule", 1, 1/2⟩] }

/-- `ruleEngine.getCandidates`, parameterized by the rules the store returned:
fallback when no rule matched, otherwise combination plus the applied-rule
records. -/
def getCandidates (matchingRules : List Rule) (context : Context)
    (userProfile : UserProfile) : RuleResults :=
  if matchingRules.length = 0 then getFallbackCandidates context userProfile
  else
    { candidates := combineRuleRecommendations matchingRules context userProfile
      appliedRules := matchingRules.map (fun rule =>
        ⟨rule.ruleId, rule.name, rule.priority, getMatchScore rule context⟩) }

/-- The `filter`/`findIndex` deduplication of `fetchCandidateTracks`: keeps
the first occurrence of each track id. -/
def jsDedupeById (tracks : List Track) : List Track :=
  (tracks.foldl (fun acc t =>
    if acc.any (fun s => s.id = t.id) then acc else acc ++ [t]) [])

/-- The body of `fetchCandidateTracks` before its `catch`.  The two catalog
queries are passed in as `Except`-valued oracles; a failing query propagates
(the function has no inner handlers).  The search query string defaults the
genre seed to `"pop"` via `seedGenres[0] || 'pop'`. -/
def fetchCandidateTracksE (recommendationsQ : Except Unit (List Track))
    (searchQ : String → Except Unit (List Track)) (candidates : Candidates)
    (targetLength : ℕ) : Except Unit (List Track) :=
  let seedGenres := (candidates.genres.take 3).map (·.name)
  let seedArtists := (candidates.userArtists.take 2).map (·.artist)
  match (if seedGenres.length > 0 ∨ seedArtists.length > 0 then recommendationsQ
    else .ok []) with
  | .error e => .error e
  | .ok tracks =>
    if tracks.length < targetLength ∧ candidates.themes.length > 0 then
      let theme := ((candidates.themes.head?).map (·.name)).getD ""
      let searchQuery := "genre:" ++ strOr seedGenres.head? "pop" ++ " " ++ theme
      match searchQ searchQuery with
      | .error e => .error e
      | .ok searchResults =>
        .ok ((jsDedupeById (tracks ++ searchResults)).take (targetLength * 3))
    else .ok ((jsDedupeById tracks).take (targetLength * 3))

/-- `fetchCandidateTracks`: the body above with its `catch`, which turns any
query failure into an empty pool. -/
def fetchCandidateTracks (recommendationsQ : Except Unit (List Track))
    (searchQ : String → Except Unit (List Track)) (candidates : Candidates)
    (targetLength : ℕ) : List Track :=
  match fetchCandidateTracksE recommendationsQ searchQ candidates targetLength with
  | .ok tracks => tracks
  | .error _ => []

/-- The empty-pool guard of `generateRecommendations`
(`if (candidateTracks.length === 0) throw new Error('No candidate tracks found')`). -/
def candidateTracksCheck (candidateTracks : List Track) : Except String (List Track) :=
  if candidateTracks.length = 0 then .error "No candidate tracks found"
  else .ok candidateTracks

/-- A user playlist (only the id is consumed by the engine). -/
structure Playlist where
  id : String
deriving DecidableEq, Repr

/-- `removeDuplicateTracks`: seen-set deduplication by track id. -/
def removeDuplicateTracks (tracks : List Track) : List Track :=
  (tracks.foldl (fun acc t =>
    if acc.any (fun s => s.id = t.id) then acc else acc ++ [t]) [])

/-- `filterTracksByContext`: drops explicit tracks in the morning. -/
def filterTracksByContext (tracks : List Track) (context : Context) : List Track :=
  tracks.filter (fun track => ¬ (context.timeOfDay = some "morning" ∧ track.explicit))

/-- The user-playlist branch calls `rankTracks` with the array `[]` in place
of the candidates object; reading `[].genres` makes the scoring body throw, so
the `catch` of `rankTracks` yields the uniform-0.5 degraded output.  This
definition is that degraded output. -/
def rankTracksUniform (tracks : List Track) : List RankedTrack :=
  tracks.map (fun track =>
    { track := track, score := 1/2, reasons := []
      contextScore := none, preferenceScore := none
      popularityScore := none, noveltyScore := none })

/-- `getRecommendationsFromUserPlaylists` (part_007): any failure or empty
intermediate stage yields `null`; otherwise the playlist tracks are pooled
(10 playlists × 50 tracks, per-playlist failures skipped), deduplicated,
context-filtered, ranked and selected with diversity weight 0.5.  The
source/reason decoration of the returned tracks is omitted. -/
def getRecommendationsFromUserPlaylists (userPlaylists : Except Unit (List Playlist))
    (playlistTracksQ : Playlist → Except Unit (List Track)) (context : Context)
    (userProfile : UserProfile) (targetCount : ℕ) : Option (List SelectedTrack) :=
  match userPlaylists with
  | .error _ => none
  | .ok playlists =>
    if playlists.length = 0 then none
    else
      let playlistTracks := (playlists.take 10).flatMap (fun playlist =>
        match playlistTracksQ playlist with
        | .ok tracks => tracks.take 50
        | .error _ => [])
      if playlistTracks.length = 0 then none
      else
        let uniqueTracks := removeDuplicateTracks playlistTracks
        let contextFiltered := filterTracksByContext uniqueTracks context
        if contextFiltered.length = 0 then none
        else
          let rankedTracks := rankTracksUniform contextFiltered
          some (selectFinalTracks rankedTracks targetCount (1/2))

/-- `getGlobalRecommendations` (part_007): fetch candidates (over-fetching
`2×targetCount`), throw when the pool is empty, otherwise rank and select with
diversity weight 0.3.  Its `catch` rethrows, so failures propagate.  The
source/reason decoration of the returned tracks is omitted. -/
def getGlobalRecommendations (recommendationsQ : Except Unit (List Track))
    (searchQ : String → Except Unit (List Track)) (ruleCandidates : Candidates)
    (context : Context) (userProfile : UserProfile) (targetCount : ℕ) :
    Except String (List SelectedTrack) :=
  let candidateTracks := fetchCandidateTracks recommendationsQ searchQ ruleCandidates
    (targetCount * 2)
  if candidateTracks.length = 0 then
    .error "No candidate tracks found for global recommendations"
  else
    .ok (selectFinalTracks (rankTracks candidateTracks context userProfile ruleCandidates)
      targetCount (3/10))

/-- The result record of `generateTwoPartRecommendations`. -/
structure TwoPartResult where
  fromUserPlaylists : Option (List SelectedTrack)
  fromGlobalRecommendations : List SelectedTrack
  combined : List SelectedTrack
deriving DecidableEq, Repr

/-- `generateTwoPartRecommendations`, as a function of the two branch results:
the user branch never throws (it returns `null` on failure), while a failure
of the global branch escapes the shared `try` and is rethrown. -/
def generateTwoPartRecommendations (userPart : Option (List SelectedTrack))
    (globalPart : Except String (List SelectedTrack)) : Except String TwoPartResult :=
  match globalPart with
  | .error e => .error e
  | .ok globalTracks =>
    .ok { fromUserPlaylists := match userPart with
            | some l => if l.length > 0 then some l else none
            | none => none
          fromGlobalRecommendations := globalTracks
          combined := (userPart.getD []) ++ globalTracks }

/-- The error path of `generateRecommendations` (part_007): any error from the
two-part generation is logged and rethrown as the service-unavailable error;
there is no fallback result. -/
def generateRecommendationsResult (twoPart : Except String TwoPartResult) :
    Except String TwoPartResult :=
  match twoPart with
  | .ok r => .ok r
  | .error _ => .error "Failed to generate recommendations - service unavailable"

/-- Sum of the `score` fields (`track.score || 0`; a zero score is unchanged
by the defaulting). -/
def scoreSum (tracks : List SelectedTrack) : ℚ :=
  (tracks.map (fun t => t.base.score)).sum

/-- `calculateTwoPartConfidence`: the 0.6/0.4-weighted average of the branch
mean scores, renormalized when a branch is empty, 0 when both are. -/
def calculateTwoPartConfidence (r : TwoPartResult) : ℚ :=
  let userPlaylistTracks := r.fromUserPlaylists.getD []
  let globalTracks := r.fromGlobalRecommendations
  if userPlaylistTracks.length = 0 ∧ globalTracks.length = 0 then 0
  else
    let userAvgScore := if userPlaylistTracks.length > 0 then
        scoreSum userPlaylistTracks / (userPlaylistTracks.length : ℚ) else 0
    let globalAvgScore := if globalTracks.length > 0 then
        scoreSum globalTracks / (globalTracks.length : ℚ) else 0
    let userWeight : ℚ := if userPlaylistTracks.length > 0 then 3/5 else 0
    let globalWeight : ℚ := if globalTracks.length > 0 then 2/5 else 0
    let totalWeight := userWeight + globalWeight
    if totalWeight = 0 then 0
    else max 0 (min 1 ((userAvgScore * userWeight + globalAvgScore * globalWeight) / totalWeight))

/-- Sum of the values of a string-keyed weight map. -/
def valSum (m : List (String × ℚ)) : ℚ :=
  (m.map (·.2)).sum

/-- A rule's contribution weight inside `combineRuleRecommendations`
(`priority * matchScore`). -/
def ruleContribution (context : Context) (rule : Rule) : ℚ :=
  rule.priority * getMatchScore rule context

/-- Modelled from the spec: satisfaction of one list-valued condition field as
the claim states it — an unset condition field is a wildcard, a populated one
requires list containment of the corresponding context value. -/
def listSatisfied (cond : Option (List String)) (v : Option String) : Bool :=
  match cond with
  | none => true
  | some l => l.length = 0 || jsIncludesOpt l v

/-- Modelled from the spec: satisfaction of the temperature-range condition —
a populated range requires the context temperature to exist and lie within the
given bounds. -/
def tempSatisfied (cond : Option TempRange) (temp : Option ℚ) : Bool :=
  match cond with
  | none => true
  | some tr =>
    if tr.min = none ∧ tr.max = none then true
    else match temp with
      | none => false
      | some t =>
        (match tr.min with
          | some m => decide (m ≤ t)
          | none => true) &&
        (match tr.max with
          | some m => decide (t ≤ m)
          | none => true)

/-- Modelled from the spec: satisfaction of the geographic condition — a
populated country/city list requires containment of the corresponding context
value. -/
def geoSatisfied (cond : Option GeoRegion) (loc : Option GeoInfo) : Bool :=
  match cond with
  | none => true
  | some gr =>
    (match gr.countries with
      | some countries => countries.length = 0 ||
          jsIncludesOpt countries (loc.bind (·.country))
      | none => true) &&
    (match gr.cities with
      | some cities => cities.length = 0 || jsIncludesOpt cities (loc.bind (·.city))
      | none => true)

/-- Modelled from the spec: the claim's reading of rule matching — every
populated condition field is satisfied by the corresponding context field,
unset condition fields are wildcards. -/
def populatedConditionsSatisfied (rule : Rule) (context : Context) : Bool :=
  let c := rule.conditions
  listSatisfied c.timeOfDay context.timeOfDay &&
  listSatisfied c.weather (context.weather.bind (·.condition)) &&
  tempSatisfied c.temperatureRange (context.weather.bind (·.temperature)) &&
  geoSatisfied c.geoRegion context.geoLocation &&
  listSatisfied c.season context.season &&
  listSatisfied c.mood (context.moodDetected.bind (·.primary)) &&
  listSatisfied c.activity (context.activityContext.bind (·.detectedActivity))

/-- The time-of-day clause of the code's matching semantics in positive form. -/
def timeOfDayOk (c : Conditions) (context : Context) : Bool :=
  match c.timeOfDay with
  | none => true
  | some l => l.length = 0 || jsIncludesOpt l context.timeOfDay

/-- The weather clause of the code's matching semantics in positive form. -/
def weatherOk (c : Conditions) (context : Context) : Bool :=
  match c.weather with
  | none => true
  | some l => l.length = 0 || jsIncludesOpt l (context.weather.bind (·.condition))

/-- The temperature clause of the code's matching semantics in positive form:
the range is a wildcard whenever the context temperature is absent or zero,
and each zero bound is itself a wildcard. -/
def temperatureOk (c : Conditions) (context : Context) : Bool :=
  match c.temperatureRange, context.weather.bind (·.temperature) with
  | some tr, some temp =>
    if temp = 0 then true
    else
      (match tr.min with
        | some m => if m = 0 then true else decide (m ≤ temp)
        | none => true) &&
      (match tr.max with
        | some m => if m = 0 then true else decide (temp ≤ m)
        | none => true)
  | _, _ => true

/-- The geographic clause of the code's matching semantics in positive form:
a wildcard whenever the context has no geolocation. -/
def geoOk (c : Conditions) (context : Context) : Bool :=
  match c.geoRegion, context.geoLocation with
  | some gr, some loc =>
    (match gr.countries with
      | some countries => countries.length = 0 || jsIncludesOpt countries loc.country
      | none => true) &&
    (match gr.cities with
      | some cities => cities.length = 0 || jsIncludesOpt cities loc.city
      | none => true)
  | _, _ => true

/-- The season clause of the code's matching semantics in positive form. -/
def seasonOk (c : Conditions) (context : Context) : Bool :=
  match c.season with
  | none => true
  | some l => l.length = 0 || jsIncludesOpt l context.season

/-- The mood clause of the code's matching semantics in positive form: a
wildcard whenever the context has no detected mood. -/
def moodOk (c : Conditions) (context : Context) : Bool :=
  match c.mood, context.moodDetected with
  | some l, some md => l.length = 0 || jsIncludesOpt l md.primary
  | _, _ => true

/-- The activity clause of the code's matching semantics in positive form: a
wildcard whenever the context has no activity record. -/
def activityOk (c : Conditions) (context : Context) : Bool :=
  match c.activity, context.activityContext with
  | some l, some ac => l.length = 0 || jsIncludesOpt l ac.detectedActivity
  | _, _ => true

/-- The code's matching semantics as a conjunction of per-field clauses. -/
def matchesAmended (rule : Rule) (context : Context) : Bool :=
  let c := rule.conditions
  timeOfDayOk c context && weatherOk c context && temperatureOk c context &&
  geoOk c context && seasonOk c context && moodOk c context && activityOk c context

/-- Fixture: the empty context. -/
def ctx0 : Context := ⟨none, none, none, none, none, none⟩

/-- Fixture: the empty user profile. -/
def prof0 : UserProfile := ⟨[], [], [], [], false⟩

/-- Fixture: no audio-feature constraints. -/
def noAudio : AudioFeatureMap := ⟨none, none, none, none, none, none⟩

/-- Fixture: an empty candidate profile (no genres, so the ranker's scoring
path does not throw). -/
def cands0 : Candidates := ⟨[], [], noAudio, [], [], [], [], [], [], ""⟩

/-- Fixture: a track with out-of-range popularity 150. -/
def tPop : Track := ⟨"t1", "Song", [⟨some "a1", "A"⟩], some 150, false⟩

/-- Fixture: an in-range track. -/
def tGood : Track := ⟨"t2", "Tune", [⟨some "a2", "B"⟩], some 60, false⟩

/-- Fixture: an explicit track. -/
def tExplicit : Track := ⟨"t3", "Loud", [⟨some "a3", "C"⟩], some 40, true⟩

/-- Fixture: a profile that has recently played `tExplicit` and avoids
explicit content. -/
def profAvoid : UserProfile := ⟨[], [], [], [tExplicit], true⟩

/-- Fixture: a rule payload with genre weights 2.5/2 and theme weight 3. -/
def rPayload0 : RulePayload :=
  ⟨some [⟨"t", 3⟩], some [⟨"pop", 5/2⟩, ⟨"rock", 2⟩], none, none, none, none, none⟩

/-- Fixture: an unconditional rule with the above payload. -/
def r0 : Rule := ⟨"r0", "R0", ⟨none, none, none, none, none, none, none⟩, rPayload0, 1, true, 0⟩

/-- Fixture: a rule payload whose genre and theme weights sum to 1. -/
def rPayload1 : RulePayload :=
  ⟨some [⟨"t", 1⟩], some [⟨"pop", 1/2⟩, ⟨"rock", 1/2⟩], none, none, none, none, none⟩

/-- Fixture: an unconditional rule with unit-sum weights. -/
def r1 : Rule := ⟨"r1", "R1", ⟨none, none, none, none, none, none, none⟩, rPayload1, 1, true, 0⟩

/-- Fixture: a rule whose only condition is the mood list `["happy"]`. -/
def rMood : Rule :=
  ⟨"rm", "RM", ⟨none, none, none, none, none, some ["happy"], none⟩, rPayload0, 1, true, 0⟩

/-- Fixture: the morning/sunny/20° context of end-to-end scenario 1. -/
def c8ctx : Context := ⟨some "morning", some ⟨some "sunny", some 20⟩, none, none, none, none⟩

/-- Fixture: a track sourced from a user playlist. -/
def t1 : Track := ⟨"u1", "UserSong", [⟨some "a2", "B"⟩], some 60, false⟩

/-- Fixture: the selected-track record the user-playlist branch produces for
`t1`. -/
def selU : SelectedTrack :=
  ⟨⟨t1, 1/2, [], none, none, none, none⟩, 1/2⟩

/-- Fixture: a generic selected track for confidence computations. -/
def selG : SelectedTrack :=
  ⟨⟨tGood, 3/5, [], none, none, none, none⟩, 3/5⟩

/-- Fixture: a candidate profile with one genre and one theme (both catalog
queries are attempted for it). -/
def c9cands : Candidates :=
  ⟨[⟨"chill", 1⟩], [⟨"rock", 1⟩], noAudio, [], [], [], [], [], [], ""⟩

/-- Fixture: a candidate profile with a theme but no genre and no artist
seeds. -/
def c9noSeeds : Candidates :=
  ⟨[⟨"chill", 1⟩], [], noAudio, [], [], [], [], [], [], ""⟩

/-- Fixture: a low-score ranked track (score 0, artist `ar0`). -/
def rLow : RankedTrack :=
  ⟨⟨"low", "Low", [⟨none, "ar0"⟩], some 50, false⟩, 0, [], none, none, none, none⟩

/-- Fixture: a selector state with fourteen selected tracks. -/
def st14 : SelState := ⟨List.replicate 14 ⟨rLow, 0⟩, ["ar0"]⟩

/-- Fixture: the empty selector state. -/
def st0 : SelState := ⟨[], []⟩

/-- Fixture: a rule whose only condition is the time-of-day list
`["morning"]`. -/
def rTime : Rule :=
  ⟨"rt", "RT", ⟨some ["morning"], none, none, none, none, none, none⟩, rPayload0, 1, true, 0⟩

/-- Fixture: the ranked-track record `rankTracks` produces for `tGood` with the
empty context/profile/candidates. -/
def c1good : RankedTrack := ⟨tGood, 11/40, [], some 0, some (3/10), some (3/5), some (4/5)⟩

/-- Fixture: the ranked-track record `rankTracks` produces for the
out-of-range-popularity track `tPop` with the empty
context/profile/candidates. -/
def c1bad : RankedTrack := ⟨tPop, 3/8, [], some 0, some (1/5), some (3/2), some (4/5)⟩

/-- Fixture: the ranked-track record `rankOne` produces for the
recently-played explicit track `tExplicit` under `profAvoid`. -/
def c7r : RankedTrack := ⟨tExplicit, 49/800, [], some 0, some (3/10), some (2/5), some (1/10)⟩

/-- Fixture: a second low-score ranked track with a distinct id. -/
def rLow2 : RankedTrack :=
  ⟨⟨"low2", "Low2", [⟨none, "ar1"⟩], some 50, false⟩, 0, [], none, none, none, none⟩

set_option maxHeartbeats 1000000 in
/-- C1 counterexample: for a track of popularity 150 (outside 0–100) the
ranked output's `popularityScore` is 1.5, which is not in `[0,1]` — the code
divides the raw popularity by 100 without clamping this sub-score. -/
theorem popularityScore_unclamped_cex :
    (rankTracks [tPop] ctx0 prof0 cands0).map (·.popularityScore) = [some (3/2)] ∧
    ¬ ((3/2 : ℚ) ≤ 1) := by
  norm_num [rankTracks, rankAll, rankOne, calculateContextScore, inferTrackGenres,
    calculateMoodMatch, calculatePreferenceScore, calculateNoveltyScore, isRecentlyPlayed,
    numOr, rawWeightedSum, penalizedScore, cands0, ctx0, prof0, tPop, noAudio,
    List.insertionSort, List.orderedInsert]

set_option maxHeartbeats 1000000 in
/-- C2 counterexample: for the single unconditionally matching rule `r0`
(total contribution weight 1 > 0) the combined genre weights sum to 4.5 and
the theme weights to 3 — `normalizeWeights` divides by the total contribution
weight, not by the weight mass, so the sums are not 1. -/
theorem combined_weights_sum_cex :
    [r0] ≠ [] ∧ 0 < totalContribution [r0] ctx0 ∧
    ((combineRuleRecommendations [r0] ctx0 prof0).genres.map (·.weight)).sum = 9/2 ∧
    ((combineRuleRecommendations [r0] ctx0 prof0).themes.map (·.weight)).sum = 3 ∧
    ((combineRuleRecommendations [r0] ctx0 prof0).genres.map (·.weight)).sum ≠ 1 := by
  norm_num +decide [totalContribution, combineAll, combineStep, combineRuleRecommendations,
    getMatchScore, Rule.matches, timeOfDayFails, weatherFails, temperatureFails, geoFails,
    seasonFails, moodFails, activityFails, condIncludes, emptyCombined, accumWeighted,
    mapSet, mapGet, combineAudioFeatures, normalizeWeights, formatCandidates,
    getUserGenreBoosts, getUserArtistBoosts, getContextFingerprint, strOr, numOr, jsRound,
    addSeen, List.insertionSort, List.orderedInsert, r0, rPayload0, ctx0, prof0]

set_option maxHeartbeats 2000000 in
/-- C3 counterexample: the user-playlist branch succeeds with one track, the
global branch fails (both catalog queries error), and the whole request fails
with the service-unavailable error instead of succeeding with the user
branch's tracks. -/
theorem global_branch_failure_cex :
    getRecommendationsFromUserPlaylists (.ok [⟨"p1"⟩]) (fun _ => .ok [t1]) ctx0 prof0 8 =
      some [selU] ∧
    generateRecommendationsResult (generateTwoPartRecommendations
      (getRecommendationsFromUserPlaylists (.ok [⟨"p1"⟩]) (fun _ => .ok [t1]) ctx0 prof0 8)
      (getGlobalRecommendations (.error ()) (fun _ => .error ()) cands0 ctx0 prof0 12)) =
      .error "Failed to generate recommendations - service unavailable" := by
  norm_num +decide [getRecommendationsFromUserPlaylists, removeDuplicateTracks,
    filterTracksByContext, rankTracksUniform, selectFinalTracks, selectLoop, selectStep,
    diversityPenalty, adjustedScore, addSeen, fallbackFill, getGlobalRecommendations,
    fetchCandidateTracks, fetchCandidateTracksE, jsDedupeById, strOr,
    generateTwoPartRecommendations, generateRecommendationsResult, ctx0, prof0, cands0,
    noAudio, t1, selU]

set_option maxHeartbeats 1000000 in
/-- C4 counterexample: the rule `rMood` has a populated mood condition
`["happy"]`, the context has no detected mood, yet `matches` succeeds — the
populated condition is not satisfied by the corresponding context field, so
the claimed equivalence fails. -/
theorem rule_matching_iff_cex :
    rMood.matches ctx0 = true ∧ populatedConditionsSatisfied rMood ctx0 = false := by
  norm_num +decide [Rule.matches, timeOfDayFails, weatherFails, temperatureFails, geoFails,
    seasonFails, moodFails, activityFails, populatedConditionsSatisfied, listSatisfied,
    tempSatisfied, geoSatisfied, jsIncludesOpt, rMood, ctx0]

set_option maxHeartbeats 1000000 in
/-- C8 counterexample: for the morning/sunny/20° context the fallback valence
target is 0.8 (the sunny adjustment overwrites the morning one), not ≈0.7 as
claimed. -/
theorem fallback_valence_target_cex :
    ((getFallbackCandidates c8ctx prof0).candidates.audioFeatures.valence.map (·.target)) =
      some (4/5) ∧
    (4/5 : ℚ) ≠ 7/10 ∧ 1/20 < (4/5 : ℚ) - 7/10 := by
  norm_num +decide [getFallbackCandidates, getFallbackGenres, getDefaultAudioFeatures, c8ctx,
    prof0]

set_option maxHeartbeats 1000000 in
/-- C8 amended: in the morning/sunny/20° scenario with no matching rules the
rule engine returns exactly one synthetic fallback rule application with
weight 1.0 and matchScore 0.5, the genre list pop/indie/electronic with equal
weights, energy target 0.7, and valence target 0.8 (not 0.7: the sunny
adjustment runs after the morning one). -/
theorem fallback_scenario_morning_sunny :
    (getCandidates [] c8ctx prof0).appliedRules = [⟨"fallback", "Fallback Rule", 1, 1/2⟩] ∧
    (getCandidates [] c8ctx prof0).candidates.genres =
      [⟨"pop", 1/3⟩, ⟨"indie", 1/3⟩, ⟨"electronic", 1/3⟩] ∧
    ((getCandidates [] c8ctx prof0).candidates.audioFeatures.energy.map (·.target)) =
      some (7/10) ∧
    ((getCandidates [] c8ctx prof0).candidates.audioFeatures.valence.map (·.target)) =
      some (4/5) := by
  norm_num +decide [getCandidates, getFallbackCandidates, getFallbackGenres,
    getDefaultAudioFeatures, getUserGenreBoosts, getUserArtistBoosts, getContextFingerprint,
    strOr, numOr, jsRound, c8ctx, prof0]

set_option maxHeartbeats 1000000 in
/-- C9 counterexample: when both catalog queries fail, `fetchCandidateTracks`
returns the empty pool (its `catch` swallows the error; no pop-seeded retry
happens), and the engine's empty-pool guard then raises
"No candidate tracks found". -/
theorem fetch_both_fail_cex :
    fetchCandidateTracks (.error ()) (fun _ => .error ()) c9cands 20 = [] ∧
    candidateTracksCheck (fetchCandidateTracks (.error ()) (fun _ => .error ()) c9cands 20) =
      .error "No candidate tracks found" := by
  norm_num +decide [fetchCandidateTracks, fetchCandidateTracksE, jsDedupeById, strOr,
    candidateTracksCheck, c9cands, noAudio]

theorem mapGet_cons (hd : String × ℚ) (tl : List (String × ℚ)) (k : String) :
    mapGet (hd :: tl) k = if hd.1 = k then some hd.2 else mapGet tl k := by
  by_cases h : hd.1 = k <;> simp [mapGet, List.find?_cons, h]

theorem mapSet_cons (hd : String × ℚ) (tl : List (String × ℚ)) (k : String) (v : ℚ) :
    mapSet (hd :: tl) k v = if hd.1 = k then (k, v) :: tl else hd :: mapSet tl k v := rfl

theorem valSum_cons (hd : String × ℚ) (tl : List (String × ℚ)) :
    valSum (hd :: tl) = hd.2 + valSum tl := by
  simp [valSum]

theorem mapSet_valSum (m : List (String × ℚ)) (k : String) (d : ℚ) :
    valSum (mapSet m k ((mapGet m k).getD 0 + d)) = valSum m + d := by
  induction m with
  | nil => simp [mapSet, mapGet, valSum]
  | cons hd tl ih =>
    rw [mapGet_cons, mapSet_cons]
    by_cases h : hd.1 = k
    · rw [if_pos h, if_pos h]
      simp only [Option.getD_some, valSum_cons]
      ring
    · rw [if_neg h, if_neg h, valSum_cons, valSum_cons, ih]
      ring

theorem accumWeighted_valSum (items : List WeightedName) (w : ℚ) :
    ∀ m, valSum (accumWeighted m items w) = valSum m + (items.map (·.weight)).sum * w := by
  induction items with
  | nil => intro m; simp [accumWeighted, valSum]
  | cons hd tl ih =>
    intro m
    simp only [accumWeighted, List.foldl_cons] at ih ⊢
    rw [ih, mapSet_valSum]
    simp only [List.map_cons, List.sum_cons]
    ring

theorem combineStep_snd (context : Context) (acc : Combined × ℚ) (rule : Rule) :
    (combineStep context acc rule).2 = acc.2 + ruleContribution context rule := rfl

theorem combineStep_genres (context : Context) (acc : Combined × ℚ) (rule : Rule) :
    (combineStep context acc rule).1.genres =
      match rule.recommendations.genres with
      | some gs => accumWeighted acc.1.genres gs (ruleContribution context rule)
      | none => acc.1.genres := rfl

theorem combineStep_themes (context : Context) (acc : Combined × ℚ) (rule : Rule) :
    (combineStep context acc rule).1.themes =
      match rule.recommendations.themes with
      | some ts => accumWeighted acc.1.themes ts (ruleContribution context rule)
      | none => acc.1.themes := rfl

theorem combineAll_snd (context : Context) :
    ∀ (rules : List Rule) (acc : Combined × ℚ),
      (rules.foldl (combineStep context) acc).2 =
        acc.2 + (rules.map (ruleContribution context)).sum := by
  intro rules
  induction rules with
  | nil => intro acc; simp
  | cons r rs ih =>
    intro acc
    simp only [List.foldl_cons, List.map_cons, List.sum_cons]
    rw [ih, combineStep_snd]
    ring

theorem combineAll_genres_valSum (context : Context) :
    ∀ (rules : List Rule) (acc : Combined × ℚ),
      (∀ r ∈ rules, ∃ gs, r.recommendations.genres = some gs ∧
        ((gs.map (·.weight)).sum = 1)) →
      valSum (rules.foldl (combineStep context) acc).1.genres =
        valSum acc.1.genres + (rules.map (ruleContribution context)).sum := by
  intro rules
  induction rules with
  | nil => intro acc _; simp
  | cons r rs ih =>
    intro acc h
    obtain ⟨gs, hgs, hsum⟩ := h r (List.mem_cons_self r rs)
    simp only [List.foldl_cons, List.map_cons, List.sum_cons]
    rw [ih _ (fun x hx => h x (List.mem_cons_of_mem _ hx))]
    rw [combineStep_genres, hgs]
    simp only
    rw [accumWeighted_valSum, hsum]
    ring



theorem combineAll_themes_valSum (context : Context) :
    ∀ (rules : List Rule) (acc : Combined × ℚ),
      (∀ r ∈ rules, ∃ ts, r.recommendations.themes = some ts ∧
        ((ts.map (·.weight)).sum = 1)) →
      valSum (rules.foldl (combineStep context) acc).1.themes =
        valSum acc.1.themes + (rules.map (ruleContribution context)).sum := by
  intro rules
  induction rules with
  | nil => intro acc _; simp
  | cons r rs ih =>
    intro acc h
    obtain ⟨ts, hts, hsum⟩ := h r (List.mem_cons_self r rs)
    simp only [List.foldl_cons, List.map_cons, List.sum_cons]
    rw [ih _ (fun x hx => h x (List.mem_cons_of_mem _ hx))]
    rw [combineStep_themes, hts]
    simp only
    rw [accumWeighted_valSum, hsum]
    ring

theorem valSum_map_div (m : List (String × ℚ)) (c : ℚ) :
    valSum (m.map (fun p => (p.1, p.2 / c))) = valSum m / c := by
  induction m with
  | nil => simp [valSum]
  | cons hd tl ih =>
    simp only [List.map_cons, valSum_cons] at ih ⊢
    rw [ih]
    ring

theorem formatCandidates_genres_sum (c : Combined) (context : Context) (u : UserProfile) :
    ((formatCandidates c context u).genres.map (·.weight)).sum = valSum c.genres := by
  have hperm := List.perm_insertionSort (fun a b : WeightedName => b.weight ≤ a.weight)
    (c.genres.map (fun p => (⟨p.1, p.2⟩ : WeightedName)))
  have := (hperm.map (fun x : WeightedName => x.weight)).sum_eq
  simp only [formatCandidates]
  rw [this, List.map_map]
  rfl

theorem formatCandidates_themes_sum (c : Combined) (context : Context) (u : UserProfile) :
    ((formatCandidates c context u).themes.map (·.weight)).sum = valSum c.themes := by
  have hperm := List.perm_insertionSort (fun a b : WeightedName => b.weight ≤ a.weight)
    (c.themes.map (fun p => (⟨p.1, p.2⟩ : WeightedName)))
  have := (hperm.map (fun x : WeightedName => x.weight)).sum_eq
  simp only [formatCandidates]
  rw [this, List.map_map]
  rfl

theorem normalizeWeights_genres (c : Combined) (tw : ℚ) (h : tw ≠ 0) :
    (normalizeWeights c tw).genres = c.genres.map (fun p => (p.1, p.2 / tw)) := by
  unfold normalizeWeights
  rw [if_neg h]

theorem normalizeWeights_themes (c : Combined) (tw : ℚ) (h : tw ≠ 0) :
    (normalizeWeights c tw).themes = c.themes.map (fun p => (p.1, p.2 / tw)) := by
  unfold normalizeWeights
  rw [if_neg h]

/-- C2 amended: the Rule Matcher's combined genre and theme weights sum to
1.0 after normalization exactly under the additional hypothesis that every
contributing rule's own genre weights and theme weights each sum to 1 — the
normalizer divides by the total contribution weight `Σ priority·matchScore`,
so in general the normalized sum is the contribution-weighted average of the
per-rule weight sums, not 1. -/
theorem combined_weights_sum_normalized (rules : List Rule) (context : Context)
    (userProfile : UserProfile)
    (htw : 0 < totalContribution rules context)
    (hg : ∀ r ∈ rules, ∃ gs, r.recommendations.genres = some gs ∧
      ((gs.map (·.weight)).sum = 1))
    (ht : ∀ r ∈ rules, ∃ ts, r.recommendations.themes = some ts ∧
      ((ts.map (·.weight)).sum = 1)) :
    ((combineRuleRecommendations rules context userProfile).genres.map (·.weight)).sum = 1 ∧
    ((combineRuleRecommendations rules context userProfile).themes.map (·.weight)).sum = 1 := by
  have hsnd : (combineAll rules context).2 = (rules.map (ruleContribution context)).sum := by
    unfold combineAll
    rw [combineAll_snd]
    simp
  have htw' : (combineAll rules context).2 ≠ 0 := by
    unfold totalContribution at htw
    exact ne_of_gt htw
  have hgen : valSum (combineAll rules context).1.genres = (combineAll rules context).2 := by
    unfold combineAll
    rw [combineAll_genres_valSum context rules _ hg, combineAll_snd]
    simp [emptyCombined, valSum]
  have hthm : valSum (combineAll rules context).1.themes = (combineAll rules context).2 := by
    unfold combineAll
    rw [combineAll_themes_valSum context rules _ ht, combineAll_snd]
    simp [emptyCombined, valSum]
  unfold combineRuleRecommendations
  rw [formatCandidates_genres_sum, formatCandidates_themes_sum]
  rw [normalizeWeights_genres _ _ htw', normalizeWeights_themes _ _ htw']
  constructor
  · rw [valSum_map_div, hgen, div_self htw']
  · rw [valSum_map_div, hthm, div_self htw']



theorem getMatchScore_ge_one (rule : Rule) (context : Context)
    (hm : rule.matches context = true) (hp : 1 ≤ rule.priority)
    (hsr : 0 ≤ rule.successRate) : 1 ≤ getMatchScore rule context := by
  unfold getMatchScore
  rw [if_neg (by simp [hm])]
  have hbase : rule.priority ≤
      ((if condIncludes rule.conditions.timeOfDay context.timeOfDay then
          rule.priority + 1/2 else rule.priority)) := by
    split_ifs <;> linarith
  set s1 := (if condIncludes rule.conditions.timeOfDay context.timeOfDay then
    rule.priority + 1/2 else rule.priority) with hs1
  have h2 : s1 ≤ (if condIncludes rule.conditions.weather
      (context.weather.bind (·.condition)) then s1 + 1/2 else s1) := by
    split_ifs <;> linarith
  set s2 := (if condIncludes rule.conditions.weather (context.weather.bind (·.condition)) then
    s1 + 1/2 else s1) with hs2
  have h3 : s2 ≤ (if condIncludes rule.conditions.mood
      (context.moodDetected.bind (·.primary)) then s2 + 3/10 else s2) := by
    split_ifs <;> linarith
  set s3 := (if condIncludes rule.conditions.mood (context.moodDetected.bind (·.primary)) then
    s2 + 3/10 else s2) with hs3
  have hs3ge : 1 ≤ s3 := by linarith
  nlinarith

/-- C10: for every non-empty set of rules that match the context and respect
the schema bounds (priority ≥ 1, successRate ≥ 0), the total contribution
weight `Σ priority·matchScore` accumulated by `combineRuleRecommendations` is
strictly positive, because each matching rule's match score is at least its
priority scaled by `(1 + successRate)`; hence the skip-normalization branch
taken when the total weight is 0 is unreachable via the real rule-matching
path. -/
theorem total_contribution_positive (rules : List Rule) (context : Context)
    (hne : rules ≠ [])
    (h : ∀ r ∈ rules, r.matches context = true ∧ 1 ≤ r.priority ∧ 0 ≤ r.successRate) :
    0 < totalContribution rules context := by
  have hsum : totalContribution rules context =
      (rules.map (ruleContribution context)).sum := by
    unfold totalContribution combineAll
    rw [combineAll_snd]
    simp
  rw [hsum]
  apply List.sum_pos
  · intro x hx
    obtain ⟨r, hr, rfl⟩ := List.mem_map.mp hx
    obtain ⟨hm, hp, hs⟩ := h r hr
    have h1 : 1 ≤ getMatchScore r context := getMatchScore_ge_one r context hm hp hs
    unfold ruleContribution
    nlinarith
  · simpa using hne



set_option maxHeartbeats 1000000 in
/-- Witness for C2 amended at the concrete one-rule set `[r1]` whose genre
and theme weights sum to 1. -/
theorem combined_weights_sum_normalized_witness :
    0 < totalContribution [r1] ctx0 ∧
    ((combineRuleRecommendations [r1] ctx0 prof0).genres.map (·.weight)).sum = 1 ∧
    ((combineRuleRecommendations [r1] ctx0 prof0).themes.map (·.weight)).sum = 1 := by
  have htw : 0 < totalContribution [r1] ctx0 := by
    norm_num +decide [totalContribution, combineAll, combineStep, getMatchScore, Rule.matches,
      timeOfDayFails, weatherFails, temperatureFails, geoFails, seasonFails, moodFails,
      activityFails, condIncludes, emptyCombined, accumWeighted, mapSet, mapGet,
      combineAudioFeatures, ruleContribution, r1, rPayload1, ctx0]
  refine ⟨htw, combined_weights_sum_normalized [r1] ctx0 prof0 htw ?_ ?_⟩
  · intro r hr
    simp only [List.mem_singleton] at hr
    subst hr
    exact ⟨_, rfl, by norm_num [r1, rPayload1]⟩
  · intro r hr
    simp only [List.mem_singleton] at hr
    subst hr
    exact ⟨_, rfl, by norm_num [r1, rPayload1]⟩

set_option maxHeartbeats 1000000 in
/-- Witness for C10 at the concrete one-rule set `[r1]`. -/
theorem total_contribution_positive_witness :
    ([r1] : List Rule) ≠ [] ∧ 0 < totalContribution [r1] ctx0 := by
  refine ⟨by simp, total_contribution_positive [r1] ctx0 (by simp) ?_⟩
  intro r hr
  simp only [List.mem_singleton] at hr
  subst hr
  refine ⟨?_, by norm_num [r1], by norm_num [r1]⟩
  norm_num +decide [Rule.matches, timeOfDayFails, weatherFails, temperatureFails, geoFails,
    seasonFails, moodFails, activityFails, r1, ctx0]

theorem iteChain (a b : Bool) : (if a = true then false else b) = (!a && b) := by
  cases a <;> simp

theorem decide_lt_eq_not_le (a b : ℚ) : decide (a < b) = !decide (b ≤ a) := by
  by_cases h : a < b
  · simp [h, not_le.mpr h]
  · simp [h, not_lt.mp h]

theorem not_timeOfDayFails (c : Conditions) (context : Context) :
    (!timeOfDayFails c context) = timeOfDayOk c context := by
  unfold timeOfDayFails timeOfDayOk
  cases c.timeOfDay with
  | none => rfl
  | some l =>
    cases l with
    | nil => simp
    | cons hd tl => cases hinc : jsIncludesOpt (hd :: tl) context.timeOfDay <;> simp [hinc]

theorem not_weatherFails (c : Conditions) (context : Context) :
    (!weatherFails c context) = weatherOk c context := by
  unfold weatherFails weatherOk
  cases c.weather with
  | none => rfl
  | some l =>
    cases l with
    | nil => simp
    | cons hd tl =>
      cases hinc : jsIncludesOpt (hd :: tl) (context.weather.bind (·.condition)) <;> simp [hinc]

theorem not_seasonFails (c : Conditions) (context : Context) :
    (!seasonFails c context) = seasonOk c context := by
  unfold seasonFails seasonOk
  cases c.season with
  | none => rfl
  | some l =>
    cases l with
    | nil => simp
    | cons hd tl => cases hinc : jsIncludesOpt (hd :: tl) context.season <;> simp [hinc]

theorem not_moodFails (c : Conditions) (context : Context) :
    (!moodFails c context) = moodOk c context := by
  unfold moodFails moodOk
  cases c.mood with
  | none => cases context.moodDetected <;> rfl
  | some l =>
    cases context.moodDetected with
    | none => rfl
    | some md =>
      cases l with
      | nil => simp
      | cons hd tl => cases hinc : jsIncludesOpt (hd :: tl) md.primary <;> simp [hinc]

theorem not_activityFails (c : Conditions) (context : Context) :
    (!activityFails c context) = activityOk c context := by
  unfold activityFails activityOk
  cases c.activity with
  | none => cases context.activityContext <;> rfl
  | some l =>
    cases context.activityContext with
    | none => rfl
    | some ac =>
      cases l with
      | nil => simp
      | cons hd tl => cases hinc : jsIncludesOpt (hd :: tl) ac.detectedActivity <;> simp [hinc]

theorem not_temperatureFails (c : Conditions) (context : Context) :
    (!temperatureFails c context) = temperatureOk c context := by
  unfold temperatureFails temperatureOk
  cases c.temperatureRange with
  | none => cases context.weather.bind (·.temperature) <;> rfl
  | some tr =>
    cases context.weather.bind (·.temperature) with
    | none => rfl
    | some temp =>
      by_cases h0 : temp = 0
      · simp [h0]
      · simp only [if_neg h0]
        cases tr.min with
        | none =>
          cases tr.max with
          | none => simp
          | some m =>
            by_cases hm : m = 0
            · simp [hm]
            · simp [hm, decide_lt_eq_not_le]
        | some m =>
          by_cases hm : m = 0
          · cases tr.max with
            | none => simp [hm]
            | some m2 =>
              by_cases hm2 : m2 = 0
              · simp [hm, hm2]
              · simp [hm, hm2, decide_lt_eq_not_le]
          · cases tr.max with
            | none => simp [hm, decide_lt_eq_not_le]
            | some m2 =>
              by_cases hm2 : m2 = 0
              · simp [hm, hm2, decide_lt_eq_not_le]
              · simp [hm, hm2, decide_lt_eq_not_le]

theorem not_geoFails (c : Conditions) (context : Context) :
    (!geoFails c context) = geoOk c context := by
  unfold geoFails geoOk
  cases c.geoRegion with
  | none => cases context.geoLocation <;> rfl
  | some gr =>
    cases context.geoLocation with
    | none => rfl
    | some loc =>
      obtain ⟨countries, cities, continents⟩ := gr
      cases countries with
      | none =>
        cases cities with
        | none => simp
        | some cs =>
          cases cs with
          | nil => simp
          | cons hd tl => cases hinc : jsIncludesOpt (hd :: tl) loc.city <;> simp [hinc]
      | some countries =>
        cases countries with
        | nil =>
          cases cities with
          | none => simp
          | some cs =>
            cases cs with
            | nil => simp
            | cons hd tl => cases hinc : jsIncludesOpt (hd :: tl) loc.city <;> simp [hinc]
        | cons chd ctl =>
          cases hc : jsIncludesOpt (chd :: ctl) loc.country with
          | false => simp [hc]
          | true =>
            cases cities with
            | none => simp [hc]
            | some cs =>
              cases cs with
              | nil => simp [hc]
              | cons hd tl =>
                cases hinc : jsIncludesOpt (hd :: tl) loc.city <;> simp [hc, hinc]

theorem matches_eq_amended (rule : Rule) (context : Context) :
    rule.matches context = matchesAmended rule context := by
  unfold Rule.matches matchesAmended
  rw [iteChain, iteChain, iteChain, iteChain, iteChain, iteChain, iteChain]
  rw [not_timeOfDayFails, not_weatherFails, not_temperatureFails, not_geoFails,
    not_seasonFails, not_moodFails, not_activityFails]
  simp [Bool.and_assoc]

end MusicRec

namespace MusicRec

theorem getMatchScore_of_not_matches (rule : Rule) (context : Context)
    (h : rule.matches context = false) : getMatchScore rule context = 0 := by
  unfold getMatchScore
  rw [if_pos (by simp [h])]

/-- C4 amended: the code's rule matching is equivalent to the per-field
characterization `matchesAmended`, in which unset condition fields are
wildcards but additionally the temperature, geographic, mood and activity
conditions are skipped whenever the corresponding context field is absent
(and a zero temperature or zero bound is treated as absent); every
non-matching rule receives match score 0 and every rule surviving
`findMatchingRules`' filter has positive score, hence matches. -/
theorem rule_matching_characterization :
    (∀ (rule : Rule) (context : Context),
      rule.matches context = matchesAmended rule context) ∧
    (∀ (rule : Rule) (context : Context), rule.matches context = false →
      getMatchScore rule context = 0) ∧
    (∀ (rules : List Rule) (context : Context) (limit : ℕ) (r : Rule),
      r ∈ filterAndScoreRules rules context limit → r.matches context = true) := by
  refine ⟨matches_eq_amended, getMatchScore_of_not_matches, ?_⟩
  intro rules context limit r hr
  unfold filterAndScoreRules at hr
  obtain ⟨p, hp, rfl⟩ := List.mem_map.mp hr
  have hp1 : p ∈ ((rules.map (fun rule => (rule, getMatchScore rule context))).filter
      (fun item => item.2 > 0)).insertionSort (fun a b => b.2 ≤ a.2) :=
    List.mem_of_mem_take hp
  have hp2 : p ∈ (rules.map (fun rule => (rule, getMatchScore rule context))).filter
      (fun item => item.2 > 0) :=
    (List.perm_insertionSort _ _).mem_iff.mp hp1
  have hpos : p.2 > 0 := by
    have := List.of_mem_filter hp2
    simpa using this
  have hmem : p ∈ rules.map (fun rule => (rule, getMatchScore rule context)) :=
    List.mem_of_mem_filter hp2
  obtain ⟨rule, hrule, hpe⟩ := List.mem_map.mp hmem
  cases hm : Rule.matches p.1 context with
  | true => rfl
  | false =>
    exfalso
    have hz : getMatchScore p.1 context = 0 := getMatchScore_of_not_matches _ _ hm
    have hp2eq : p.2 = getMatchScore p.1 context := by
      rw [← hpe]
    rw [hp2eq, hz] at hpos
    exact lt_irrefl 0 hpos

set_option maxHeartbeats 1000000 in
/-- Witness for C4 amended at concrete rules: the unconditional rule `r0`
and the non-matching time-conditioned rule `rTime`. -/
theorem rule_matching_characterization_witness :
    (r0.matches ctx0 = matchesAmended r0 ctx0) ∧
    (rTime.matches ctx0 = false) ∧ getMatchScore rTime ctx0 = 0 ∧
    r0.matches ctx0 = true := by
  have hfalse : rTime.matches ctx0 = false := by
    norm_num +decide [Rule.matches, timeOfDayFails, weatherFails, temperatureFails, geoFails,
      seasonFails, moodFails, activityFails, jsIncludesOpt, rTime, ctx0]
  have hmem : r0 ∈ filterAndScoreRules [r0] ctx0 10 := by
    norm_num +decide [filterAndScoreRules, getMatchScore, Rule.matches, timeOfDayFails,
      weatherFails, temperatureFails, geoFails, seasonFails, moodFails, activityFails,
      condIncludes, List.insertionSort, List.orderedInsert, r0, rPayload0, ctx0]
  exact ⟨rule_matching_characterization.1 r0 ctx0, hfalse,
    rule_matching_characterization.2.1 rTime ctx0 hfalse,
    rule_matching_characterization.2.2 [r0] ctx0 10 r0 hmem⟩

theorem clamp01_nonneg (x : ℚ) : 0 ≤ max 0 (min 1 x) := le_max_left 0 _

theorem clamp01_le_one (x : ℚ) : max 0 (min 1 x) ≤ 1 :=
  max_le (by norm_num) (min_le_left 1 x)

theorem calculatePreferenceScore_bounds (track : Track) (userProfile : UserProfile) :
    0 ≤ calculatePreferenceScore track userProfile ∧
    calculatePreferenceScore track userProfile ≤ 1 := by
  unfold calculatePreferenceScore
  exact ⟨clamp01_nonneg _, clamp01_le_one _⟩

theorem calculateNoveltyScore_bounds (track : Track) (userProfile : UserProfile) :
    0 ≤ calculateNoveltyScore track userProfile ∧
    calculateNoveltyScore track userProfile ≤ 1 := by
  unfold calculateNoveltyScore
  constructor <;>
    (by_cases h1 : isRecentlyPlayed track userProfile.recentTracks = true <;>
     by_cases h2 : (userProfile.topArtists.any (fun artist =>
       track.artists.any (fun trackArtist => trackArtist.id = artist.id))) = true <;>
     by_cases h3 : numOr track.popularity 0 > 20 <;>
     simp [h1, h2, h3] <;> norm_num)

theorem calculateContextScore_ok_bounds (track : Track) (context : Context)
    (candidates : Candidates) (v : ℚ)
    (h : calculateContextScore track context candidates = .ok v) : 0 ≤ v ∧ v ≤ 1 := by
  unfold calculateContextScore at h
  by_cases hg : (inferTrackGenres candidates.genres).length > 0
  · rw [if_pos hg] at h
    exact absurd h (by simp)
  · rw [if_neg hg] at h
    simp only [Except.ok.injEq] at h
    subst h
    exact ⟨clamp01_nonneg _, clamp01_le_one _⟩

theorem rankAll_ok_mem (context : Context) (userProfile : UserProfile)
    (candidates : Candidates) :
    ∀ (tracks : List Track) (rs : List RankedTrack),
      rankAll context userProfile candidates tracks = .ok rs →
      ∀ r ∈ rs, ∃ t ∈ tracks, rankOne context userProfile candidates t = .ok r := by
  intro tracks
  induction tracks with
  | nil =>
    intro rs h r hr
    simp only [rankAll, Except.ok.injEq] at h
    subst h
    simp at hr
  | cons t ts ih =>
    intro rs h r hr
    simp only [rankAll] at h
    cases h1 : rankOne context userProfile candidates t with
    | error e => rw [h1] at h; exact absurd h (by simp)
    | ok r0 =>
      rw [h1] at h
      cases h2 : rankAll context userProfile candidates ts with
      | error e => rw [h2] at h; exact absurd h (by simp)
      | ok rs0 =>
        rw [h2] at h
        simp only [Except.ok.injEq] at h
        subst h
        rcases List.mem_cons.mp hr with hr0 | hr0
        · exact ⟨t, List.mem_cons_self t ts, by rw [h1, hr0]⟩
        · obtain ⟨t', ht', hok⟩ := ih rs0 h2 r hr0
          exact ⟨t', List.mem_cons_of_mem _ ht', hok⟩

theorem rankOne_ok_fields (context : Context) (userProfile : UserProfile)
    (candidates : Candidates) (track : Track) (r : RankedTrack)
    (h : rankOne context userProfile candidates track = .ok r) :
    ∃ cs, calculateContextScore track context candidates = .ok cs ∧
      r.contextScore = some cs ∧
      r.preferenceScore = some (calculatePreferenceScore track userProfile) ∧
      r.popularityScore = some (numOr track.popularity 50 / 100) ∧
      r.noveltyScore = some (calculateNoveltyScore track userProfile) ∧
      r.score = max 0 (min 1 (penalizedScore
        (rawWeightedSum cs (calculatePreferenceScore track userProfile)
          (numOr track.popularity 50 / 100) (calculateNoveltyScore track userProfile))
        (isRecentlyPlayed track userProfile.recentTracks)
        (track.explicit ∧ userProfile.avoidExplicit))) := by
  unfold rankOne at h
  cases hcs : calculateContextScore track context candidates with
  | error e => rw [hcs] at h; exact absurd h (by simp)
  | ok cs =>
    rw [hcs] at h
    simp only [Except.ok.injEq] at h
    subst h
    exact ⟨cs, rfl, rfl, rfl, rfl, rfl, rfl⟩



/-- C1 amended: after `rankTracks`, for every input pool — including tracks
whose popularity lies outside 0–100 — the final score is clamped to `[0,1]`
and the context/preference/novelty sub-scores are clamped or constant in
`[0,1]`, unconditionally; the popularity sub-score however is the unclamped
`popularity/100` (0 or absent popularity defaulting to 50), so it lies in
`[0,1]` only under the additional hypothesis that every track's effective
popularity lies in `[0,100]`; the degraded branch sets no sub-scores and
score 0.5. -/
theorem rankTracks_score_bounds :
    (∀ (tracks : List Track) (context : Context) (userProfile : UserProfile)
        (candidates : Candidates),
      ∀ r ∈ rankTracks tracks context userProfile candidates,
        (0 ≤ r.score ∧ r.score ≤ 1) ∧
        (∀ v, r.contextScore = some v → 0 ≤ v ∧ v ≤ 1) ∧
        (∀ v, r.preferenceScore = some v → 0 ≤ v ∧ v ≤ 1) ∧
        (∀ v, r.noveltyScore = some v → 0 ≤ v ∧ v ≤ 1)) ∧
    (∀ (tracks : List Track) (context : Context) (userProfile : UserProfile)
        (candidates : Candidates),
      (∀ t ∈ tracks, 0 ≤ numOr t.popularity 50 ∧ numOr t.popularity 50 ≤ 100) →
      ∀ r ∈ rankTracks tracks context userProfile candidates,
        ∀ v, r.popularityScore = some v → 0 ≤ v ∧ v ≤ 1) := by
  constructor
  · intro tracks context userProfile candidates r hr
    unfold rankTracks at hr
    cases hall : rankAll context userProfile candidates tracks with
    | error e =>
      rw [hall] at hr
      obtain ⟨t, ht, rfl⟩ := List.mem_map.mp hr
      exact ⟨⟨by norm_num, by norm_num⟩, by simp, by simp, by simp⟩
    | ok rs =>
      rw [hall] at hr
      have hmem : r ∈ rs := (List.perm_insertionSort _ _).mem_iff.mp hr
      obtain ⟨t, ht, hok⟩ := rankAll_ok_mem context userProfile candidates tracks rs hall r hmem
      obtain ⟨cs, hcs, hrcs, hrps, hrpop, hrnov, hrscore⟩ :=
        rankOne_ok_fields context userProfile candidates t r hok
      refine ⟨?_, ?_, ?_, ?_⟩
      · rw [hrscore]
        exact ⟨clamp01_nonneg _, clamp01_le_one _⟩
      · intro v hv
        rw [hrcs, Option.some.injEq] at hv
        subst hv
        exact calculateContextScore_ok_bounds t context candidates cs hcs
      · intro v hv
        rw [hrps, Option.some.injEq] at hv
        subst hv
        exact calculatePreferenceScore_bounds t userProfile
      · intro v hv
        rw [hrnov, Option.some.injEq] at hv
        subst hv
        exact calculateNoveltyScore_bounds t userProfile
  · intro tracks context userProfile candidates hpop r hr v hv
    unfold rankTracks at hr
    cases hall : rankAll context userProfile candidates tracks with
    | error e =>
      rw [hall] at hr
      obtain ⟨t, ht, rfl⟩ := List.mem_map.mp hr
      simp at hv
    | ok rs =>
      rw [hall] at hr
      have hmem : r ∈ rs := (List.perm_insertionSort _ _).mem_iff.mp hr
      obtain ⟨t, ht, hok⟩ := rankAll_ok_mem context userProfile candidates tracks rs hall r hmem
      obtain ⟨cs, hcs, hrcs, hrps, hrpop, hrnov, hrscore⟩ :=
        rankOne_ok_fields context userProfile candidates t r hok
      rw [hrpop, Option.some.injEq] at hv
      subst hv
      obtain ⟨h0, h100⟩ := hpop t ht
      refine ⟨div_nonneg h0 (by norm_num), ?_⟩
      rw [div_le_one (by norm_num : (0:ℚ) < 100)]
      exact h100




set_option maxHeartbeats 2000000 in
/-- Witness for C1 amended: the unconditional bounds at the
out-of-range-popularity pool `[tPop]` (popularity 150), the popularity bound
at the in-range pool `[tGood]`. -/
theorem rankTracks_score_bounds_witness :
    ((0 ≤ c1bad.score ∧ c1bad.score ≤ 1) ∧
      (∀ v, c1bad.contextScore = some v → 0 ≤ v ∧ v ≤ 1) ∧
      (∀ v, c1bad.preferenceScore = some v → 0 ≤ v ∧ v ≤ 1) ∧
      (∀ v, c1bad.noveltyScore = some v → 0 ≤ v ∧ v ≤ 1)) ∧
    (∀ t ∈ [tGood], 0 ≤ numOr t.popularity 50 ∧ numOr t.popularity 50 ≤ 100) ∧
    (∀ v, c1good.popularityScore = some v → 0 ≤ v ∧ v ≤ 1) := by
  have hpop : ∀ t ∈ [tGood], 0 ≤ numOr t.popularity 50 ∧ numOr t.popularity 50 ≤ 100 := by
    intro t ht
    simp only [List.mem_singleton] at ht
    subst ht
    norm_num [tGood, numOr]
  have hmembad : c1bad ∈ rankTracks [tPop] ctx0 prof0 cands0 := by
    norm_num +decide [rankTracks, rankAll, rankOne, calculateContextScore, inferTrackGenres,
      calculateMoodMatch, calculatePreferenceScore, calculateNoveltyScore, isRecentlyPlayed,
      numOr, rawWeightedSum, penalizedScore, cands0, ctx0, prof0, tPop, noAudio, c1bad,
      List.insertionSort, List.orderedInsert]
  have hmemgood : c1good ∈ rankTracks [tGood] ctx0 prof0 cands0 := by
    norm_num +decide [rankTracks, rankAll, rankOne, calculateContextScore, inferTrackGenres,
      calculateMoodMatch, calculatePreferenceScore, calculateNoveltyScore, isRecentlyPlayed,
      numOr, rawWeightedSum, penalizedScore, cands0, ctx0, prof0, tGood, noAudio, c1good,
      List.insertionSort, List.orderedInsert]
  exact ⟨rankTracks_score_bounds.1 [tPop] ctx0 prof0 cands0 c1bad hmembad, hpop,
    rankTracks_score_bounds.2 [tGood] ctx0 prof0 cands0 hpop c1good hmemgood⟩

/-- C7: in the scoring path of `rankTracks`, a track that is both in the
recent-plays window and explicit while the user's avoid-explicit preference is
set receives the score `rawWeightedSum × 0.7 × 0.5` before the final clamp —
the two penalties apply multiplicatively after the weighted sum,
recently-played first. -/
theorem penalty_application_order (context : Context) (userProfile : UserProfile)
    (candidates : Candidates) (track : Track) (r : RankedTrack) (cs : ℚ)
    (hok : rankOne context userProfile candidates track = .ok r)
    (hcs : r.contextScore = some cs)
    (hrec : isRecentlyPlayed track userProfile.recentTracks = true)
    (hexp : track.explicit = true)
    (havd : userProfile.avoidExplicit = true) :
    penalizedScore (rawWeightedSum cs (calculatePreferenceScore track userProfile)
        (numOr track.popularity 50 / 100) (calculateNoveltyScore track userProfile))
        (isRecentlyPlayed track userProfile.recentTracks)
        (track.explicit ∧ userProfile.avoidExplicit) =
      rawWeightedSum cs (calculatePreferenceScore track userProfile)
        (numOr track.popularity 50 / 100) (calculateNoveltyScore track userProfile) *
        (7/10) * (1/2) ∧
    r.score = max 0 (min 1 (rawWeightedSum cs (calculatePreferenceScore track userProfile)
        (numOr track.popularity 50 / 100) (calculateNoveltyScore track userProfile) *
        (7/10) * (1/2))) := by
  obtain ⟨cs', hcs', hrcs, hrps, hrpop, hrnov, hrscore⟩ :=
    rankOne_ok_fields context userProfile candidates track r hok
  have hcseq : cs' = cs := by
    rw [hrcs, Option.some.injEq] at hcs
    exact hcs
  subst hcseq
  have hpen : penalizedScore (rawWeightedSum cs' (calculatePreferenceScore track userProfile)
      (numOr track.popularity 50 / 100) (calculateNoveltyScore track userProfile))
      (isRecentlyPlayed track userProfile.recentTracks)
      (track.explicit ∧ userProfile.avoidExplicit) =
      rawWeightedSum cs' (calculatePreferenceScore track userProfile)
        (numOr track.popularity 50 / 100) (calculateNoveltyScore track userProfile) *
        (7/10) * (1/2) := by
    unfold penalizedScore
    rw [hrec, hexp, havd]
    simp
  exact ⟨hpen, by rw [hrscore, hpen]⟩

set_option maxHeartbeats 1000000 in
/-- Witness for C7 at the concrete track `tExplicit` and profile `profAvoid`. -/
theorem penalty_application_order_witness :
    isRecentlyPlayed tExplicit profAvoid.recentTracks = true ∧
    tExplicit.explicit = true ∧ profAvoid.avoidExplicit = true ∧
    (penalizedScore (rawWeightedSum 0 (calculatePreferenceScore tExplicit profAvoid)
        (numOr tExplicit.popularity 50 / 100) (calculateNoveltyScore tExplicit profAvoid))
        (isRecentlyPlayed tExplicit profAvoid.recentTracks)
        (tExplicit.explicit ∧ profAvoid.avoidExplicit) =
      rawWeightedSum 0 (calculatePreferenceScore tExplicit profAvoid)
        (numOr tExplicit.popularity 50 / 100) (calculateNoveltyScore tExplicit profAvoid) *
        (7/10) * (1/2) ∧
      c7r.score = max 0 (min 1 (rawWeightedSum 0
        (calculatePreferenceScore tExplicit profAvoid)
        (numOr tExplicit.popularity 50 / 100) (calculateNoveltyScore tExplicit profAvoid) *
        (7/10) * (1/2)))) := by
  have hok : rankOne ctx0 profAvoid cands0 tExplicit = .ok c7r := by
    norm_num +decide [rankOne, calculateContextScore, inferTrackGenres, calculateMoodMatch,
      calculatePreferenceScore, calculateNoveltyScore, isRecentlyPlayed, numOr,
      rawWeightedSum, penalizedScore, cands0, ctx0, profAvoid, tExplicit, noAudio, c7r]
  have hrec : isRecentlyPlayed tExplicit profAvoid.recentTracks = true := by
    norm_num +decide [isRecentlyPlayed, profAvoid, tExplicit]
  exact ⟨hrec, rfl, rfl,
    penalty_application_order ctx0 profAvoid cands0 tExplicit c7r 0 hok rfl hrec rfl rfl⟩

/-- C5: in `selectFinalTracks` with target length 20, while fewer than 14
(`= 0.7 × 20`) tracks are selected every iterated candidate is admitted
regardless of its adjusted score; once 14 or more are selected a candidate is
admitted by the main loop exactly when its adjusted score
`score × (1 − diversityPenalty × diversityWeight)` exceeds 0.2; and every
output track comes from the main loop or the under-fill fallback fill. -/
theorem selector_admission :
    (∀ (dw : ℚ) (st : SelState) (track : RankedTrack), st.selected.length < 14 →
      (selectStep 20 dw st track).selected =
        st.selected ++ [⟨track, adjustedScore dw st track⟩]) ∧
    (∀ (dw : ℚ) (st : SelState) (track : RankedTrack),
      14 ≤ st.selected.length → st.selected.length < 20 →
      (adjustedScore dw st track > 1/5 →
        (selectStep 20 dw st track).selected =
          st.selected ++ [⟨track, adjustedScore dw st track⟩]) ∧
      (adjustedScore dw st track ≤ 1/5 →
        (selectStep 20 dw st track).selected = st.selected)) ∧
    (∀ (pool : List RankedTrack) (target : ℕ) (dw : ℚ) (s : SelectedTrack),
      s ∈ selectFinalTracks pool target dw →
      s ∈ (selectLoop target dw pool).selected ∨
      s ∈ fallbackFill pool (selectLoop target dw pool).selected target) := by
  refine ⟨?_, ?_, ?_⟩
  · intro dw st track h
    unfold selectStep
    rw [if_neg (by omega)]
    have hcast : (st.selected.length : ℚ) < (20 : ℕ) * (7/10) := by
      have : (st.selected.length : ℚ) < 14 := by exact_mod_cast h
      push_cast
      linarith
    rw [if_pos (Or.inr hcast)]
  · intro dw st track h14 h20
    constructor
    · intro hadj
      unfold selectStep
      rw [if_neg (by omega), if_pos (Or.inl hadj)]
    · intro hadj
      unfold selectStep
      rw [if_neg (by omega), if_neg ?_]
      push_neg
      refine ⟨hadj, ?_⟩
      have : (14 : ℚ) ≤ (st.selected.length : ℚ) := by exact_mod_cast h14
      push_cast
      linarith
  · intro pool target dw s hs
    unfold selectFinalTracks at hs
    have hs' := List.mem_of_mem_take hs
    by_cases hlen : (selectLoop target dw pool).selected.length < target
    · rw [if_pos hlen] at hs'
      exact List.mem_append.mp hs'
    · rw [if_neg hlen] at hs'
      exact Or.inl hs'

set_option maxHeartbeats 1000000 in
/-- Witness for C5 at the empty state, a 14-element state, and the singleton
pool `[rLow]`. -/
theorem selector_admission_witness :
    (st0.selected.length < 14 ∧
      (selectStep 20 (3/10) st0 rLow).selected =
        st0.selected ++ [⟨rLow, adjustedScore (3/10) st0 rLow⟩]) ∧
    (14 ≤ st14.selected.length ∧ st14.selected.length < 20 ∧
      adjustedScore (3/10) st14 rLow ≤ 1/5 ∧
      (selectStep 20 (3/10) st14 rLow).selected = st14.selected) ∧
    ((⟨rLow, 0⟩ : SelectedTrack) ∈ selectFinalTracks [rLow] 1 (3/10) ∧
      ((⟨rLow, 0⟩ : SelectedTrack) ∈ (selectLoop 1 (3/10) [rLow]).selected ∨
        (⟨rLow, 0⟩ : SelectedTrack) ∈ fallbackFill [rLow]
          (selectLoop 1 (3/10) [rLow]).selected 1)) := by
  have h0 : st0.selected.length < 14 := by simp [st0]
  have h14a : 14 ≤ st14.selected.length := by simp [st14]
  have h14b : st14.selected.length < 20 := by simp [st14]
  have hadj : adjustedScore (3/10) st14 rLow ≤ 1/5 := by
    norm_num [adjustedScore, diversityPenalty, st14, rLow]
  have hmem : (⟨rLow, 0⟩ : SelectedTrack) ∈ selectFinalTracks [rLow] 1 (3/10) := by
    norm_num +decide [selectFinalTracks, selectLoop, selectStep, adjustedScore,
      diversityPenalty, addSeen, fallbackFill, st0, rLow]
  exact ⟨⟨h0, selector_admission.1 (3/10) st0 rLow h0⟩,
    ⟨h14a, h14b, hadj, (selector_admission.2.1 (3/10) st14 rLow h14a h14b).2 hadj⟩,
    ⟨hmem, selector_admission.2.2 [rLow] 1 (3/10) ⟨rLow, 0⟩ hmem⟩⟩

theorem selectStep_cases (target : ℕ) (dw : ℚ) (st : SelState) (track : RankedTrack) :
    selectStep target dw st track = st ∨
    (st.selected.length < target ∧ selectStep target dw st track =
      ⟨st.selected ++ [⟨track, adjustedScore dw st track⟩],
        addSeen st.seenArtists (track.track.artists.map (·.name))⟩) := by
  unfold selectStep
  by_cases h1 : st.selected.length ≥ target
  · rw [if_pos h1]; left; rfl
  · rw [if_neg h1]
    by_cases h2 : adjustedScore dw st track > 1/5 ∨
        (st.selected.length : ℚ) < (target : ℚ) * (7/10)
    · rw [if_pos h2]; right; exact ⟨by omega, rfl⟩
    · rw [if_neg h2]; left; rfl

theorem selectLoop_go (target : ℕ) (dw : ℚ) :
    ∀ (ts : List RankedTrack) (st : SelState),
      ∃ extra, (ts.foldl (selectStep target dw) st).selected = st.selected ++ extra ∧
        (extra.map (fun s => s.base.track.id)).Sublist (ts.map (fun t => t.track.id)) := by
  intro ts
  induction ts with
  | nil => intro st; exact ⟨[], by simp, by simp⟩
  | cons t ts ih =>
    intro st
    rcases selectStep_cases target dw st t with h | ⟨_, h⟩
    · obtain ⟨extra, he, hs⟩ := ih (selectStep target dw st t)
      refine ⟨extra, ?_, hs.trans (List.sublist_cons_self _ _)⟩
      rw [List.foldl_cons, he, h]
    · obtain ⟨extra, he, hs⟩ := ih (selectStep target dw st t)
      refine ⟨⟨t, adjustedScore dw st t⟩ :: extra, ?_, ?_⟩
      · rw [List.foldl_cons, he, h]
        simp
      · simpa using hs.cons₂ t.track.id

theorem selectLoop_length_le (target : ℕ) (dw : ℚ) :
    ∀ (ts : List RankedTrack) (st : SelState), st.selected.length ≤ target →
      ((ts.foldl (selectStep target dw) st).selected).length ≤ target := by
  intro ts
  induction ts with
  | nil => intro st h; exact h
  | cons t ts ih =>
    intro st h
    rw [List.foldl_cons]
    apply ih
    rcases selectStep_cases target dw st t with hc | ⟨hlt, hc⟩
    · rw [hc]; exact h
    · rw [hc]
      simp only [List.length_append, List.length_singleton]
      omega

theorem length_filter_not_mem {α : Type} [DecidableEq α] :
    ∀ {sub L : List α}, sub.Sublist L → L.Nodup →
      (L.filter (fun x => decide (x ∉ sub))).length = L.length - sub.length := by
  intro sub L h
  induction h with
  | slnil => simp
  | @cons l₁ l₂ a h ih =>
    intro hnd
    rw [List.nodup_cons] at hnd
    have hna : a ∉ l₁ := fun hmem => hnd.1 (h.subset hmem)
    rw [List.filter_cons, if_pos (by simpa using hna)]
    simp only [List.length_cons]
    rw [ih hnd.2]
    have := h.length_le
    omega
  | @cons₂ l₁ l₂ a h ih =>
    intro hnd
    rw [List.nodup_cons] at hnd
    rw [List.filter_cons, if_neg (by simp)]
    have hcongr : List.filter (fun x => decide (x ∉ a :: l₁)) l₂ =
        List.filter (fun x => decide (x ∉ l₁)) l₂ := by
      apply List.filter_congr
      intro x hx
      have hxa : x ≠ a := fun hxe => hnd.1 (hxe ▸ hx)
      simp [List.mem_cons, hxa]
    rw [hcongr, ih hnd.2]
    have := h.length_le
    simp only [List.length_cons]
    omega



/-- C6: for every ranked pool with pairwise-distinct track ids and every
target length, `selectFinalTracks` returns exactly `min target poolSize`
tracks — the under-fill fallback appends unselected tracks until the target or
the pool is exhausted. -/
theorem selector_underfill_length (pool : List RankedTrack) (target : ℕ) (dw : ℚ)
    (hnd : (pool.map (fun t => t.track.id)).Nodup) :
    (selectFinalTracks pool target dw).length = min target pool.length := by
  obtain ⟨main, hmain, hsub⟩ := selectLoop_go target dw pool ⟨[], []⟩
  have hmain' : (selectLoop target dw pool).selected = main := by
    unfold selectLoop
    rw [hmain]
    simp
  have hlen_t : main.length ≤ target := by
    rw [← hmain']
    exact selectLoop_length_le target dw pool ⟨[], []⟩ (by simp)
  have hlen_p : main.length ≤ pool.length := by
    have := hsub.length_le
    simpa using this
  have hfilter : (pool.filter (fun track =>
      ¬ main.any (fun s => s.base.track.id = track.track.id))).length
      = pool.length - main.length := by
    have hcongr : pool.filter (fun track =>
        ¬ main.any (fun s => s.base.track.id = track.track.id))
        = pool.filter (fun track =>
          decide (track.track.id ∉ main.map (fun s => s.base.track.id))) := by
      apply List.filter_congr
      intro x hx
      rw [decide_eq_decide]
      simp [List.any_eq_true, List.mem_map]
    rw [hcongr]
    have hmapped : (pool.filter (fun track =>
        decide (track.track.id ∉ main.map (fun s => s.base.track.id)))).length
        = ((pool.map (fun t => t.track.id)).filter (fun x =>
          decide (x ∉ main.map (fun s => s.base.track.id)))).length := by
      rw [← List.countP_eq_length_filter, ← List.countP_eq_length_filter, List.countP_map]
      rfl
    rw [hmapped, length_filter_not_mem hsub hnd]
    simp
  simp only [selectFinalTracks, fallbackFill, hmain']
  by_cases hlt : main.length < target
  · rw [if_pos hlt]
    rw [List.length_take, List.length_append, List.length_map, List.length_take, hfilter]
    simp only [Nat.min_def]
    split_ifs <;> omega
  · rw [if_neg hlt]
    rw [List.length_take]
    simp only [Nat.min_def]
    split_ifs <;> omega



/-- Witness for C6 at the concrete two-track pool with target 5. -/
theorem selector_underfill_length_witness :
    (([rLow, rLow2].map (fun t => t.track.id)).Nodup) ∧
    (selectFinalTracks [rLow, rLow2] 5 (3/10)).length = min 5 ([rLow, rLow2].length) := by
  have hnd : (([rLow, rLow2]).map (fun t => t.track.id)).Nodup := by
    simp [rLow, rLow2]
  exact ⟨hnd, selector_underfill_length [rLow, rLow2] 5 (3/10) hnd⟩

/-- C3 amended: a user-playlist-branch failure is absorbed (the branch
becomes `null`) and the request succeeds with the global branch's tracks, the
confidence then being the clamped mean score of the global branch alone; but
a global-branch failure always fails the whole request with the
service-unavailable error, even when the user branch is populated. -/
theorem branch_degradation :
    (∀ (e : Unit) (q : Playlist → Except Unit (List Track)) (context : Context)
        (userProfile : UserProfile) (n : ℕ),
      getRecommendationsFromUserPlaylists (.error e) q context userProfile n = none) ∧
    (∀ (g : List SelectedTrack), g ≠ [] →
      generateRecommendationsResult (generateTwoPartRecommendations none (.ok g)) =
        .ok ⟨none, g, g⟩ ∧
      calculateTwoPartConfidence ⟨none, g, g⟩ =
        max 0 (min 1 (scoreSum g / (g.length : ℚ)))) ∧
    (∀ (u : Option (List SelectedTrack)) (e : String),
      generateRecommendationsResult (generateTwoPartRecommendations u (.error e)) =
        .error "Failed to generate recommendations - service unavailable") := by
  refine ⟨?_, ?_, ?_⟩
  · intro e q context userProfile n
    rfl
  · intro g hg
    have hlen : g.length ≠ 0 := by
      simpa [List.length_eq_zero] using hg
    constructor
    · rfl
    · have hpos : 0 < g.length := Nat.pos_of_ne_zero hlen
      simp [calculateTwoPartConfidence, hlen, hpos]
  · intro u e
    cases u <;> rfl



/-- Witness for C3 amended at the concrete branch results `[selG]`,
`some [selU]` and a failing playlist fetch. -/
theorem branch_degradation_witness :
    getRecommendationsFromUserPlaylists (.error ()) (fun _ => .ok [t1]) ctx0 prof0 8 = none ∧
    ([selG] : List SelectedTrack) ≠ [] ∧
    generateRecommendationsResult (generateTwoPartRecommendations none (.ok [selG])) =
      .ok ⟨none, [selG], [selG]⟩ ∧
    calculateTwoPartConfidence ⟨none, [selG], [selG]⟩ =
      max 0 (min 1 (scoreSum [selG] / (([selG] : List SelectedTrack).length : ℚ))) ∧
    generateRecommendationsResult (generateTwoPartRecommendations (some [selU])
      (.error "boom")) =
      .error "Failed to generate recommendations - service unavailable" := by
  have hne : ([selG] : List SelectedTrack) ≠ [] := by simp
  obtain ⟨h1, h2⟩ := branch_degradation.2.1 [selG] hne
  exact ⟨branch_degradation.1 () (fun _ => .ok [t1]) ctx0 prof0 8, hne, h1, h2,
    branch_degradation.2.2 (some [selU]) "boom"⟩

/-- C9 amended: when both catalog queries fail, `fetchCandidateTracks`
returns the empty pool (its `catch` swallows the error; no pop-seeded retry
exists) and the engine's guard raises "No candidate tracks found"; the `"pop"`
default is used only inside the free-text search query, when the profile has
no genre/artist seeds but has a theme — in that case the fetcher returns the
deduplicated search results. -/
theorem fetch_fallback_behavior :
    (∀ (candidates : Candidates) (targetLength : ℕ),
      fetchCandidateTracks (.error ()) (fun _ => .error ()) candidates targetLength = []) ∧
    (∀ (recommendationsQ : Except Unit (List Track))
        (searchQ : String → Except Unit (List Track)) (candidates : Candidates)
        (targetLength : ℕ) (th : WeightedName) (rest : List WeightedName) (l : List Track),
      candidates.genres = [] → candidates.userArtists = [] →
      candidates.themes = th :: rest → 0 < targetLength →
      searchQ ("genre:pop " ++ th.name) = .ok l →
      fetchCandidateTracks recommendationsQ searchQ candidates targetLength =
        (jsDedupeById l).take (targetLength * 3)) ∧
    candidateTracksCheck [] = .error "No candidate tracks found" := by
  refine ⟨?_, ?_, rfl⟩
  · intro candidates targetLength
    simp only [fetchCandidateTracks, fetchCandidateTracksE]
    by_cases hseed : (((candidates.genres.take 3).map (fun x => x.name)).length > 0 ∨
        ((candidates.userArtists.take 2).map (fun x => x.artist)).length > 0)
    · rw [if_pos hseed]
    · rw [if_neg hseed]
      dsimp only
      by_cases hsearch : (([] : List Track).length < targetLength ∧
          candidates.themes.length > 0)
      · rw [if_pos hsearch]
      · rw [if_neg hsearch]
        simp [jsDedupeById]
  · intro recommendationsQ searchQ candidates targetLength th rest l hg ha ht htgt hs
    simp only [fetchCandidateTracks, fetchCandidateTracksE]
    rw [hg, ha, ht]
    rw [if_neg (by simp)]
    dsimp only
    rw [if_pos (by simp [htgt])]
    have hqe : ("genre:" ++ strOr ((([] : List WeightedName).take 3).map
        (fun x => x.name)).head? "pop" ++ " " ++
        ((Option.map (fun x => x.name) (th :: rest).head?).getD "")) =
        "genre:pop " ++ th.name := by
      simp only [List.take_nil, List.map_nil, List.head?_nil, List.head?_cons,
        Option.map_some, Option.getD_some, strOr]
      rfl
    rw [hqe, hs]
    simp



/-- Witness for C9 amended at the concrete profiles `c9cands` (both queries
fail) and `c9noSeeds` (no seeds, successful pop-seeded search). -/
theorem fetch_fallback_behavior_witness :
    fetchCandidateTracks (.error ()) (fun _ => .error ()) c9cands 7 = [] ∧
    fetchCandidateTracks (.error ()) (fun _ => .ok [t1]) c9noSeeds 4 =
      (jsDedupeById [t1]).take (4 * 3) := by
  refine ⟨fetch_fallback_behavior.1 c9cands 7, ?_⟩
  exact fetch_fallback_behavior.2.1 (.error ()) (fun _ => .ok [t1]) c9noSeeds 4
    ⟨"chill", 1⟩ [] [t1] rfl rfl rfl (by norm_num) rfl

end MusicRec
